import Mathlib

/-!
Verification of the LinkPlay media-player component
(`homeassistant/components/media_player/linkplay.py`).

The Python module is shallowly embedded below.  Machine-level behaviour is
modelled as follows: JSON values are an inductive type (the outcome of
`json.loads` is given as data, since the JSON text parser itself is the
Python standard library, external to the component); hex-encoded strings are
decoded by an executable hex + UTF-8 decoder mirroring
`bytearray.fromhex(x).decode()`; Python exceptions (`ValueError`, `KeyError`,
`TypeError`, `AttributeError`, `IndexError`) are explicit error values, and a
raised exception carries the partially mutated device state so that partial
updates are observable.  The external collaborators (HTTP transports, the
eyeD3 tag reader, the last.fm service) are oracles: functions supplied as
parameters whose result type enumerates exactly the outcomes the Python code
distinguishes.
-/

namespace LinkPlay

/-! ## Python-level primitives -/

/-- Exceptions that the embedded code can raise. -/
inductive Exn where
  | valueError
  | typeError
  | keyError
  | attributeError
  | indexError
deriving DecidableEq, Repr

/-- Value of a single hexadecimal digit, as in `int(c, 16)`. -/
def hexVal (c : Char) : Option Nat :=
  if '0' ≤ c ∧ c ≤ '9' then some (c.toNat - '0'.toNat)
  else if 'a' ≤ c ∧ c ≤ 'f' then some (c.toNat - 'a'.toNat + 10)
  else if 'A' ≤ c ∧ c ≤ 'F' then some (c.toNat - 'A'.toNat + 10)
  else none

/-- Pairs of hex digits to bytes, as in `bytearray.fromhex`: two digits per
byte, `none` on a stray digit or a non-hex character (Python raises
`ValueError` there). -/
def hexBytes : List Char → Option (List Nat)
  | [] => some []
  | [_] => none
  | a :: b :: rest =>
    match hexVal a, hexVal b with
    | some x, some y => (hexBytes rest).map (fun l => (16 * x + y) :: l)
    | _, _ => none

/-- Embedding of `bytearray.fromhex` on a string: ASCII spaces are skipped, the remaining
characters must be an even number of hex digits. -/
def hexDecodeBytes (s : String) : Option (List Nat) :=
  hexBytes (s.toList.filter (fun c => c ≠ ' '))

/-- Is `b` a UTF-8 continuation byte (`0x80–0xBF`)? -/
def isCont (b : Nat) : Bool := 0x80 ≤ b ∧ b ≤ 0xBF

/-- Strict UTF-8 decoding of a byte list, as in `bytes.decode()`: rejects
truncated sequences, overlong encodings, surrogates and code points above
`0x10FFFF` (Python raises `UnicodeDecodeError`, a `ValueError`). -/
def utf8Decode : List Nat → Option (List Char)
  | [] => some []
  | b :: rest =>
    if b < 0x80 then
      (utf8Decode rest).map (fun l => Char.ofNat b :: l)
    else if 0xC2 ≤ b ∧ b ≤ 0xDF then
      match rest with
      | c1 :: rest1 =>
        if isCont c1 then
          (utf8Decode rest1).map (fun l =>
            Char.ofNat ((b - 0xC0) * 0x40 + (c1 - 0x80)) :: l)
        else none
      | _ => none
    else if 0xE0 ≤ b ∧ b ≤ 0xEF then
      match rest with
      | c1 :: c2 :: rest2 =>
        let lo1 := if b = 0xE0 then 0xA0 else 0x80
        let hi1 := if b = 0xED then 0x9F else 0xBF
        if (lo1 ≤ c1 ∧ c1 ≤ hi1) ∧ isCont c2 then
          (utf8Decode rest2).map (fun l =>
            Char.ofNat ((b - 0xE0) * 0x1000 + (c1 - 0x80) * 0x40 + (c2 - 0x80)) :: l)
        else none
      | _ => none
    else if 0xF0 ≤ b ∧ b ≤ 0xF4 then
      match rest with
      | c1 :: c2 :: c3 :: rest3 =>
        let lo1 := if b = 0xF0 then 0x90 else 0x80
        let hi1 := if b = 0xF4 then 0x8F else 0xBF
        if (lo1 ≤ c1 ∧ c1 ≤ hi1) ∧ isCont c2 ∧ isCont c3 then
          (utf8Decode rest3).map (fun l =>
            Char.ofNat ((b - 0xF0) * 0x40000 + (c1 - 0x80) * 0x1000 +
              (c2 - 0x80) * 0x40 + (c3 - 0x80)) :: l)
        else none
      | _ => none
    else none

/-- Embedding of `str(bytearray.fromhex(s).decode())`: hex decoding followed by UTF-8
decoding; `none` corresponds to a raised `ValueError`. -/
def decodeHexStr (s : String) : Option String :=
  (hexDecodeBytes s).bind (fun bs => (utf8Decode bs).map String.mk)

/-- ASCII whitespace, as stripped by Python `int(s)`. -/
def isSpaceChar (c : Char) : Bool :=
  c = ' ' ∨ c = '\t' ∨ c = '\n' ∨ c = '\r' ∨ c = '\x0b' ∨ c = '\x0c'

/-- Python `int(s)` on a string: optional surrounding whitespace, an optional
sign, then one or more decimal digits; `none` on anything else
(`ValueError`). -/
def pyInt (s : String) : Option Int :=
  let t := ((s.toList.dropWhile isSpaceChar).reverse.dropWhile isSpaceChar).reverse
  let core : List Char → Option Int := fun ds =>
    if ds ≠ [] ∧ ds.all Char.isDigit then
      some (ds.foldl (fun a c => a * 10 + (c.toNat - '0'.toNat)) (0 : Int))
    else none
  match t with
  | '+' :: ds => core ds
  | '-' :: ds => (core ds).map Int.neg
  | ds => core ds

/-! ## JSON values

The outcome of `json.loads` on a successfully parsed document. -/

inductive Json where
  | null
  | bool (b : Bool)
  | num (n : Int)
  | str (s : String)
  | arr (xs : List Json)
  | obj (kvs : List (String × Json))

/-- Dictionary lookup `d[k]` on a parsed JSON object (string keys). -/
def jLookup (kvs : List (String × Json)) (k : String) : Option Json :=
  match kvs with
  | [] => none
  | (k2, v) :: rest => if k = k2 then some v else jLookup rest k

/-- Python `int(x)` on a JSON-decoded value: parses strings, passes integers
through, converts booleans, and raises `TypeError` on `None`, lists and
dictionaries. -/
def pyIntOfJson (j : Json) : Except Exn Int :=
  match j with
  | .str s => match pyInt s with
    | some n => .ok n
    | none => .error .valueError
  | .num n => .ok n
  | .bool b => .ok (if b then 1 else 0)
  | _ => .error .typeError

/-- Embedding of `bytearray.fromhex(x).decode()` on a JSON-decoded field: `TypeError` when
the field is not a string, `ValueError` when the hex or UTF-8 decoding
fails. -/
def hexField (j : Json) : Except Exn String :=
  match j with
  | .str s => match decodeHexStr s with
    | some t => .ok t
    | none => .error .valueError
  | _ => .error .typeError

/-! ## Static tables and small helpers of `LinkPlayDevice` -/

/-- Embedding of `MAX_VOL = 100`. -/
def MAX_VOL : Nat := 100

/-- Embedding of `MEDIA_TYPE_MUSIC` from Home Assistant's media-player constants. -/
def MEDIA_TYPE_MUSIC : String := "music"

/-- Embedding of `SOUND_MODES`, in the dictionary's insertion order. -/
def SOUND_MODES : List (String × String) :=
  [("0", "Normal"), ("1", "Classic"), ("2", "Pop"), ("3", "Jazz"), ("4", "Vocal")]

/-- Embedding of `SOURCES_MAP`, in the dictionary's insertion order. -/
def SOURCES_MAP : List (String × String) :=
  [("0", "WiFi"), ("10", "WiFi"), ("31", "WiFi"), ("40", "Line-in"),
   ("41", "Bluetooth"), ("43", "Optical")]

/-- Assoc-list lookup for the static string tables (`dict.get` with a string
key). -/
def tLookup (tbl : List (String × String)) (k : String) : Option String :=
  match tbl with
  | [] => none
  | (k2, v) :: rest => if k = k2 then some v else tLookup rest k

/-- Playback state of the device (`STATE_PLAYING` / `STATE_PAUSED` /
`STATE_UNKNOWN`). -/
inductive PlaybackState where
  | unknown
  | playing
  | paused
deriving DecidableEq, Repr

/-- Embedding of `{'stop': STATE_PAUSED, 'play': STATE_PLAYING, 'pause': STATE_PAUSED}
.get(st, STATE_UNKNOWN)` on a string key. -/
def strStateOf (st : String) : PlaybackState :=
  if st = "stop" then .paused
  else if st = "play" then .playing
  else if st = "pause" then .paused
  else .unknown

/-- The same dictionary `get` on the raw JSON value: a list or dict key is
unhashable and raises `TypeError`; any other non-matching key gives the
default. -/
def stateOf (j : Json) : Except Exn PlaybackState :=
  match j with
  | .str st => .ok (strStateOf st)
  | .arr _ => .error .typeError
  | .obj _ => .error .typeError
  | _ => .ok .unknown

/-- Embedding of `SOURCES_MAP.get(player_status['mode'], 'WiFi')`. -/
def sourceOf (j : Json) : Except Exn String :=
  match j with
  | .str m => .ok ((tLookup SOURCES_MAP m).getD "WiFi")
  | .arr _ => .error .typeError
  | .obj _ => .error .typeError
  | _ => .ok "WiFi"

/-- Embedding of `SOUND_MODES.get(player_status['eq'])`. -/
def soundModeOf (j : Json) : Except Exn (Option String) :=
  match j with
  | .str e => .ok (tLookup SOUND_MODES e)
  | .arr _ => .error .typeError
  | .obj _ => .error .typeError
  | _ => .ok none

/-- Embedding of `True if player_status['loop'] == '2' else False`. -/
def shuffleOf (j : Json) : Bool :=
  match j with
  | .str s => s = "2"
  | _ => false

/-- Embedding of `player_status['totlen'] == '0'` (string comparison with the raw JSON
value, line 447). -/
def isTotlenStrZero (j : Json) : Bool :=
  match j with
  | .str s => s = "0"
  | _ => false

/-- Embedding of `status['Title'] != self._media_title` (line 358): the raw JSON `Title`
value is compared against the stored title.  Python `!=` between values of
different types is `True`; `None != None` is `False`. -/
def titleDiffers (j : Json) (stored : Option String) : Bool :=
  match j, stored with
  | .str s, some t => s ≠ t
  | .null, none => false
  | _, _ => true

/-! ## The device state (`LinkPlayDevice` instance attributes) -/

/-- The mutable attributes of a `LinkPlayDevice`.  `volume` and `muted` hold
the raw JSON values assigned at lines 417–418; `mediaImageUrl` holds the raw
JSON value a last.fm lookup may assign. -/
structure PlayerState where
  state : PlaybackState
  volume : Option Json
  muted : Option Json
  source : Option String
  soundMode : Option String
  seekPosition : Option Int
  duration : Option Int
  positionUpdatedAt : Option Nat
  shuffle : Option Bool
  mediaAlbum : Option String
  mediaArtist : Option String
  mediaTitle : Option String
  mediaImageUrl : Option Json
  mediaUri : Option String
  firstUpdate : Bool

/-- The state set up by `LinkPlayDevice.__init__`. -/
def initialState : PlayerState :=
  { state := .unknown
    volume := none
    muted := none
    source := none
    soundMode := none
    seekPosition := none
    duration := none
    positionUpdatedAt := none
    shuffle := none
    mediaAlbum := none
    mediaArtist := none
    mediaTitle := none
    mediaImageUrl := none
    mediaUri := none
    firstUpdate := true }

/-- Embedding of `self._media_title == 'Unknown' and self._media_artist == 'Unknown'`
(`_is_playing_spotify`, lines 364–366). -/
def isPlayingSpotify (s : PlayerState) : Bool :=
  s.mediaTitle = some "Unknown" ∧ s.mediaArtist = some "Unknown"

/-- Embedding of `self._media_uri.find('.mp3', len(self._media_uri)-4) != -1`
(`_is_playing_mp3`, lines 360–362): `'.mp3'` can occur at or after position
`len-4` exactly when the string's last four characters are `'.mp3'`. -/
def isPlayingMp3 (uri : String) : Bool :=
  uri.toList.drop (uri.length - 4) = ".mp3".toList

/-! ## External collaborators as oracles -/

/-- Outcome of `_update_from_id3`'s interaction with `urllib` and eyeD3:
either `urlretrieve` raises `URLError`, or `eyed3.load(...)` yields no usable
tag (so that `audiofile.tag.title` raises `AttributeError`), or a tag is read
whose `title` / `artist` / `album` attributes are each a string or `None`. -/
inductive Id3Outcome where
  | urlError
  | noTag
  | tags (title artist album : Option String)

/-- The file-tag collaborator: what fetching and tag-reading the given URI
yields. -/
def Id3Oracle := String → Id3Outcome

/-- Outcome of one last.fm request, given to `_get_lastfm_coverart` at the
`json.loads(self._lfmapi.data)` boundary: the transport returned no data
(`self._lfmapi.data is None`), or text that is not JSON, or a parsed JSON
document. -/
inductive LfmResponse where
  | noData
  | badText
  | json (j : Json)

/-- The last.fm collaborator, keyed by the artist and title interpolated into
the query. -/
def LfmOracle := Option String → Option String → LfmResponse

/-- Python subscript `j[k]` with a string key: `KeyError` on a missing
dictionary key, `TypeError` on any non-dictionary value. -/
def subscriptStr (j : Json) (k : String) : Except Exn Json :=
  match j with
  | .obj kvs => match jLookup kvs k with
    | some v => .ok v
    | none => .error .keyError
  | _ => .error .typeError

/-- Python subscript `j[i]` with an integer index: list indexing
(`IndexError` out of range), `KeyError` on a dictionary (string keys only
here), character indexing on a string, `TypeError` otherwise. -/
def subscriptNat (j : Json) (i : Nat) : Except Exn Json :=
  match j with
  | .arr xs => match xs.get? i with
    | some v => .ok v
    | none => .error .indexError
  | .obj _ => .error .keyError
  | .str s => match s.toList.get? i with
    | some c => .ok (.str (String.mk [c]))
    | none => .error .indexError
  | _ => .error .typeError

/-- Embedding of `lfmdata['track']['album']['image'][2]['#text']` (line 391). -/
def lfmPath (j : Json) : Except Exn Json := do
  let t ← subscriptStr j "track"
  let a ← subscriptStr t "album"
  let i ← subscriptStr a "image"
  let i2 ← subscriptNat i 2
  subscriptStr i2 "#text"

/-- Embedding of `_get_lastfm_coverart` (lines 381–393).  `json.loads` sits outside the
`try`, so a missing response raises `TypeError` and unparseable text raises
`ValueError`; inside the `try`, only `ValueError` and `KeyError` are caught
and turned into an unset image URL — `TypeError` and `IndexError` from the
subscript chain propagate. -/
def getLastfmCoverart (resp : LfmResponse) (s : PlayerState) :
    Except Exn PlayerState :=
  match resp with
  | .noData => .error .typeError
  | .badText => .error .valueError
  | .json j =>
    match lfmPath j with
    | .ok v => .ok { s with mediaImageUrl := some v }
    | .error .valueError => .ok { s with mediaImageUrl := none }
    | .error .keyError => .ok { s with mediaImageUrl := none }
    | .error e => .error e

/-- Embedding of `_update_from_id3` (lines 368–379): a `URLError` is caught and clears
title, artist and album; a missing tag raises `AttributeError` at
`audiofile.tag.title`, before any field is assigned; a read tag assigns all
three fields. -/
def updateFromId3 (outcome : Id3Outcome) (s : PlayerState) :
    Except Exn PlayerState :=
  match outcome with
  | .urlError =>
    .ok { s with mediaTitle := none, mediaArtist := none, mediaAlbum := none }
  | .noTag => .error .attributeError
  | .tags t a al =>
    .ok { s with mediaTitle := t, mediaArtist := a, mediaAlbum := al }

/-! ## The refresh cycle (`LinkPlayDevice.update`, lines 395–464) -/

/-- What one `getPlayerStatus` round trip produced, at the `json.loads`
boundary: no data (transport failure), text that is not JSON (`ValueError`
caught at lines 403–408), or a parsed JSON document. -/
inductive LpResponse where
  | noData
  | badText
  | json (j : Json)

/-- How a call to `update` ended: a normal `return b`, or a propagating
Python exception. -/
inductive UOutcome where
  | returned (b : Bool)
  | raised (e : Exn)

/-- Result of one `update` call: the device state afterwards (partially
mutated when an exception escaped), how the call ended, and how many times
the ID3 and last.fm collaborators were invoked during it. -/
structure UpdateResult where
  state : PlayerState
  outcome : UOutcome
  id3Calls : Nat
  lfmCalls : Nat

/-- Embedding of `_is_playing_new_track` (lines 355–358), with `totlen` already converted:
Python's `or` evaluates the duration comparison first and reads `Title` only
when the durations agree. -/
def newTrackCheck (kvs : List (String × Json)) (s : PlayerState) (tl : Int) :
    Except Exn Bool :=
  if s.duration ≠ some (Int.tdiv tl 1000) then .ok true
  else
    match jLookup kvs "Title" with
    | none => .error .keyError
    | some jt => .ok (titleDiffers jt s.mediaTitle)

/-- Result of the new-track block (lines 436–457): a normally finished state
or a propagating exception, together with the partially mutated state and the
number of collaborator calls made. -/
inductive Step where
  | ok (s : PlayerState) (id3Calls lfmCalls : Nat)
  | raised (s : PlayerState) (e : Exn) (id3Calls lfmCalls : Nat)

/-- The new-track block (lines 436–457): decode `Title` and `Artist` from
hex, then classify — Spotify placeholder, radio (`totlen == '0'`), `.mp3`
file (ID3 enrichment, then last.fm cover art when a key is configured and a
title is present), or nothing. -/
def applyNewTrack (id3 : Id3Oracle) (lfm : Option LfmOracle)
    (kvs : List (String × Json)) (jtot : Json) (s : PlayerState) : Step :=
  match jLookup kvs "Title" with
  | none => .raised s .keyError 0 0
  | some jt =>
    match hexField jt with
    | .error e => .raised s e 0 0
    | .ok tt =>
      match jLookup kvs "Artist" with
      | none => .raised { s with mediaTitle := some tt } .keyError 0 0
      | some ja =>
        match hexField ja with
        | .error e => .raised { s with mediaTitle := some tt } e 0 0
        | .ok ta =>
          let s2 : PlayerState :=
            { s with mediaTitle := some tt, mediaArtist := some ta }
          if isPlayingSpotify s2 then
            .ok { s2 with mediaTitle := some "Spotify",
                          mediaArtist := some "Spotify" } 0 0
          else if isTotlenStrZero jtot then
            .ok { s2 with mediaAlbum := some "", mediaImageUrl := none } 0 0
          else
            match s2.mediaUri with
            | none => .raised s2 .attributeError 0 0
            | some u =>
              if isPlayingMp3 u then
                match updateFromId3 (id3 u) s2 with
                | .error e => .raised s2 e 1 0
                | .ok s3 =>
                  match lfm with
                  | some oracle =>
                    match s3.mediaTitle with
                    | some _ =>
                      match getLastfmCoverart
                          (oracle s3.mediaArtist s3.mediaTitle) s3 with
                      | .ok s4 => .ok s4 1 1
                      | .error e => .raised s3 e 1 1
                    | none => .ok { s3 with mediaImageUrl := none } 1 0
                  | none => .ok { s3 with mediaImageUrl := none } 1 0
              else .ok s2 0 0

/-- Lines 433–464 after the new-track check: run the new-track block when the
track changed, then unconditionally recompute `_duration` (line 459) and
`return True`. -/
def finishTrack (id3 : Id3Oracle) (lfm : Option LfmOracle)
    (kvs : List (String × Json)) (jtot : Json) (tl : Int) (isNew : Bool)
    (s : PlayerState) : UpdateResult :=
  if isNew then
    match applyNewTrack id3 lfm kvs jtot s with
    | .ok s2 i l =>
      ⟨{ s2 with duration := some (Int.tdiv tl 1000) }, .returned true, i, l⟩
    | .raised s2 e i l => ⟨s2, .raised e, i, l⟩
  else ⟨{ s with duration := some (Int.tdiv tl 1000) }, .returned true, 0, 0⟩

/-- Lines 433–464: read and convert `totlen` (first touched inside
`_is_playing_new_track`), run the check, then `finishTrack`. -/
def afterStage1 (id3 : Id3Oracle) (lfm : Option LfmOracle)
    (kvs : List (String × Json)) (s : PlayerState) : UpdateResult :=
  match jLookup kvs "totlen" with
  | none => ⟨s, .raised .keyError, 0, 0⟩
  | some jtot =>
    match pyIntOfJson jtot with
    | .error e => ⟨s, .raised e, 0, 0⟩
    | .ok tl =>
      match newTrackCheck kvs s tl with
      | .error e => ⟨s, .raised e, 0, 0⟩
      | .ok isNew => finishTrack id3 lfm kvs jtot tl isNew s

/-- The body of `update` for a JSON-object payload (lines 410–464): the
always-updated fields are assigned in source order (volume, mute, seek
position, position timestamp, media URI, playback state, source, sound mode,
shuffle), so an exception leaves the earlier assignments in place. -/
def updateDict (id3 : Id3Oracle) (lfm : Option LfmOracle) (now : Nat)
    (s0 : PlayerState) (kvs : List (String × Json)) : UpdateResult :=
  let sA := { s0 with firstUpdate := false }
  match jLookup kvs "vol" with
  | none => ⟨sA, .raised .keyError, 0, 0⟩
  | some jv =>
    let sB := { sA with volume := some jv }
    match jLookup kvs "mute" with
    | none => ⟨sB, .raised .keyError, 0, 0⟩
    | some jm =>
      let sC := { sB with muted := some jm }
      match jLookup kvs "curpos" with
      | none => ⟨sC, .raised .keyError, 0, 0⟩
      | some jc =>
        match pyIntOfJson jc with
        | .error e => ⟨sC, .raised e, 0, 0⟩
        | .ok cp =>
          let sD := { sC with seekPosition := some (Int.tdiv cp 1000),
                              positionUpdatedAt := some now }
          match jLookup kvs "iuri" with
          | none => ⟨sD, .raised .keyError, 0, 0⟩
          | some ju =>
            match hexField ju with
            | .error e => ⟨sD, .raised e, 0, 0⟩
            | .ok uri =>
              let sE := { sD with mediaUri := some uri }
              match jLookup kvs "status" with
              | none => ⟨sE, .raised .keyError, 0, 0⟩
              | some jst =>
                match stateOf jst with
                | .error e => ⟨sE, .raised e, 0, 0⟩
                | .ok pst =>
                  let sF := { sE with state := pst }
                  match jLookup kvs "mode" with
                  | none => ⟨sF, .raised .keyError, 0, 0⟩
                  | some jmo =>
                    match sourceOf jmo with
                    | .error e => ⟨sF, .raised e, 0, 0⟩
                    | .ok src =>
                      let sG := { sF with source := some src }
                      match jLookup kvs "eq" with
                      | none => ⟨sG, .raised .keyError, 0, 0⟩
                      | some jeq =>
                        match soundModeOf jeq with
                        | .error e => ⟨sG, .raised e, 0, 0⟩
                        | .ok sm =>
                          let sH := { sG with soundMode := sm }
                          match jLookup kvs "loop" with
                          | none => ⟨sH, .raised .keyError, 0, 0⟩
                          | some jl =>
                            afterStage1 id3 lfm kvs
                              { sH with shuffle := some (shuffleOf jl) }

/-- Embedding of `update` (lines 395–464): `return False` when the transport yielded no
data; a warning and `return True` when the text is not JSON or the JSON root
is not an object; otherwise process the object. -/
def update (id3 : Id3Oracle) (lfm : Option LfmOracle) (now : Nat)
    (s : PlayerState) (resp : LpResponse) : UpdateResult :=
  match resp with
  | .noData => ⟨s, .returned false, 0, 0⟩
  | .badText => ⟨s, .returned true, 0, 0⟩
  | .json (.obj kvs) => updateDict id3 lfm now s kvs
  | .json _ => ⟨s, .returned true, 0, 0⟩

/-- A device status payload whose consumed fields are all JSON strings, in
the shape `getPlayerStatus` actually returns. -/
def mkStatus (vol mute curpos totlen iuri status mode eq loopv title artist :
    String) : List (String × Json) :=
  [("vol", .str vol), ("mute", .str mute), ("curpos", .str curpos),
   ("totlen", .str totlen), ("iuri", .str iuri), ("status", .str status),
   ("mode", .str mode), ("eq", .str eq), ("loop", .str loopv),
   ("Title", .str title), ("Artist", .str artist)]

/-! ## Public properties (lines 147–235)

`volume_level` computes `int(self._volume) / MAX_VOL` and `is_volume_muted`
computes `bool(int(self._muted))`; on a never-assigned (`None`) attribute the
`int(...)` raises `TypeError`.  Every other media property returns the stored
attribute directly. -/

/-- Embedding of `volume_level` (lines 157–160). -/
def volume_level (s : PlayerState) : Except Exn ℚ :=
  match s.volume with
  | none => .error .typeError
  | some j => (pyIntOfJson j).map (fun n => (n : ℚ) / (MAX_VOL : ℚ))

/-- Embedding of `is_volume_muted` (lines 162–165). -/
def is_volume_muted (s : PlayerState) : Except Exn Bool :=
  match s.muted with
  | none => .error .typeError
  | some j => (pyIntOfJson j).map (fun n => decide (n ≠ 0))

/-- Embedding of `source` (lines 167–170). -/
def source (s : PlayerState) : Option String := s.source

/-- Embedding of `media_position` (lines 192–195). -/
def media_position (s : PlayerState) : Option Int := s.seekPosition

/-- Embedding of `media_duration` (lines 197–200). -/
def media_duration (s : PlayerState) : Option Int := s.duration

/-- Embedding of `shuffle` (lines 207–210). -/
def shuffle (s : PlayerState) : Option Bool := s.shuffle

/-- Embedding of `media_title` (lines 212–215). -/
def media_title (s : PlayerState) : Option String := s.mediaTitle

/-- Embedding of `media_artist` (lines 217–220). -/
def media_artist (s : PlayerState) : Option String := s.mediaArtist

/-- Embedding of `media_album_name` (lines 222–225). -/
def media_album_name (s : PlayerState) : Option String := s.mediaAlbum

/-- Embedding of `media_image_url` (lines 227–230). -/
def media_image_url (s : PlayerState) : Option Json := s.mediaImageUrl

/-! ## Control commands (lines 237–353)

Each command sends one request and compares the response text against the
literal `"OK"`; a transport failure is the absent response.  No command
method assigns any device attribute, so each is embedded as a function that
returns the (unchanged) state, the command string sent, and whether the
failure warning was logged. -/

/-- Embedding of `value != "OK"` where `value` is the response text or `None`. -/
def ackFailed (resp : Option String) : Bool := resp ≠ some "OK"

/-- Banker's rounding of `round(q)`, as Python's built-in `round`. -/
def pyRound (q : ℚ) : Int :=
  let f := Int.floor q
  let r := q - (f : ℚ)
  if r < 1 / 2 then f
  else if 1 / 2 < r then f + 1
  else if f % 2 = 0 then f else f + 1

/-- ASCII `str.lower()` (all source names are ASCII). -/
def toLowerStr (s : String) : String :=
  String.mk (s.toList.map (fun c =>
    if 'A' ≤ c ∧ c ≤ 'Z' then Char.ofNat (c.toNat + 32) else c))

/-- Embedding of `str(preset).zfill(3)`: left-pad with `'0'` to the given width. -/
def zfill (w : Nat) (s : String) : String :=
  String.mk (List.replicate (w - s.length) '0') ++ s

/-- Embedding of `list(SOUND_MODES.keys())[list(SOUND_MODES.values()).index(name)]`:
the key of the first table entry whose value is `name`; a missing name
raises `ValueError` from `.index`. -/
def reverseLookup (tbl : List (String × String)) (name : String) :
    Option String :=
  match tbl with
  | [] => none
  | (k, v) :: rest => if v = name then some k else reverseLookup rest name

/-- Embedding of `turn_off` (lines 237–243). -/
def turn_off (s : PlayerState) (resp : Option String) :
    PlayerState × String × Bool :=
  (s, "getShutdown", ackFailed resp)

/-- Embedding of `set_volume_level` (lines 245–252): the 0..1 fraction is scaled by
`MAX_VOL` and rounded. -/
def set_volume_level (s : PlayerState) (volume : ℚ) (resp : Option String) :
    PlayerState × String × Bool :=
  (s, "setPlayerCmd:vol:" ++ toString (pyRound (volume * (MAX_VOL : ℚ))),
   ackFailed resp)

/-- Embedding of `mute_volume` (lines 254–260): `str(int(mute))`. -/
def mute_volume (s : PlayerState) (mute : Bool) (resp : Option String) :
    PlayerState × String × Bool :=
  (s, "setPlayerCmd:mute:" ++ (if mute then "1" else "0"), ackFailed resp)

/-- Embedding of `media_play` (lines 262–268). -/
def media_play (s : PlayerState) (resp : Option String) :
    PlayerState × String × Bool :=
  (s, "setPlayerCmd:play", ackFailed resp)

/-- Embedding of `media_pause` (lines 270–276). -/
def media_pause (s : PlayerState) (resp : Option String) :
    PlayerState × String × Bool :=
  (s, "setPlayerCmd:pause", ackFailed resp)

/-- Embedding of `media_next_track` (lines 278–284). -/
def media_next_track (s : PlayerState) (resp : Option String) :
    PlayerState × String × Bool :=
  (s, "setPlayerCmd:next", ackFailed resp)

/-- Embedding of `media_previous_track` (lines 286–292). -/
def media_previous_track (s : PlayerState) (resp : Option String) :
    PlayerState × String × Bool :=
  (s, "setPlayerCmd:prev", ackFailed resp)

/-- Embedding of `media_seek` (lines 294–300). -/
def media_seek (s : PlayerState) (position : Int) (resp : Option String) :
    PlayerState × String × Bool :=
  (s, "setPlayerCmd:seek:" ++ toString position, ackFailed resp)

/-- Embedding of `play_media` (lines 302–313): a non-music media type is rejected with an
error log before any request is sent; `none` in the second component means no
command was issued. -/
def play_media (s : PlayerState) (media_type media_id : String)
    (resp : Option String) : PlayerState × Option String × Bool :=
  if media_type ≠ MEDIA_TYPE_MUSIC then (s, none, false)
  else (s, some ("setPlayerCmd:play:" ++ media_id), ackFailed resp)

/-- Embedding of `select_source` (lines 315–326): `'MicroSD'` maps to `'udisk'`, other
names are lowercased. -/
def select_source (s : PlayerState) (src : String) (resp : Option String) :
    PlayerState × String × Bool :=
  let wire := if src = "MicroSD" then "udisk" else toLowerStr src
  (s, "setPlayerCmd:switchmode:" ++ wire, ackFailed resp)

/-- Embedding of `select_sound_mode` (lines 328–336): the display name is reverse-looked
up in `SOUND_MODES`; an unknown name raises `ValueError`. -/
def select_sound_mode (s : PlayerState) (sound_mode : String)
    (resp : Option String) : Except Exn (PlayerState × String × Bool) :=
  match reverseLookup SOUND_MODES sound_mode with
  | none => .error .valueError
  | some mode =>
    .ok (s, "setPlayerCmd:equalizer:" ++ mode, ackFailed resp)

/-- Embedding of `set_shuffle` (lines 338–345). -/
def set_shuffle (s : PlayerState) (shuf : Bool) (resp : Option String) :
    PlayerState × String × Bool :=
  (s, "setPlayerCmd:loopmode:" ++ (if shuf then "2" else "0"), ackFailed resp)

/-- Embedding of `preset_button` (lines 347–353). -/
def preset_button (s : PlayerState) (preset : Nat) (resp : Option String) :
    PlayerState × String × Bool :=
  (s, "IOSimuKeyIn:" ++ zfill 3 (toString preset), ackFailed resp)

/-! ## Helper lemmas about `update` -/

/-- Responses whose processing never reaches the JSON-object branch. -/
def nonDictResp (r : LpResponse) : Bool :=
  match r with
  | .json (.obj _) => false
  | _ => true

/-- Did the transport deliver any data?  (`update` returns this.) -/
def respHasData (r : LpResponse) : Bool :=
  match r with
  | .noData => false
  | _ => true

theorem update_nonDict (id3 : Id3Oracle) (lfm : Option LfmOracle) (now : Nat)
    (s : PlayerState) (r : LpResponse) (h : nonDictResp r = true) :
    update id3 lfm now s r = ⟨s, .returned (respHasData r), 0, 0⟩ := by
  cases r with
  | noData => rfl
  | badText => rfl
  | json j => cases j <;> first | rfl | simp [nonDictResp] at h

/-- The state after the always-updated assignments of lines 412–431, for a
payload whose fields are all JSON strings, with `curpos` already converted
to `cp` and `iuri` already decoded to `uri`. -/
def stage1Str (now : Nat) (cp : Int) (uri vol mute status mode eq loopv :
    String) (s : PlayerState) : PlayerState :=
  { s with firstUpdate := false,
           volume := some (.str vol),
           muted := some (.str mute),
           seekPosition := some (Int.tdiv cp 1000),
           positionUpdatedAt := some now,
           mediaUri := some uri,
           state := strStateOf status,
           source := some ((tLookup SOURCES_MAP mode).getD "WiFi"),
           soundMode := tLookup SOUND_MODES eq,
           shuffle := some (decide (loopv = "2")) }

theorem updateDict_mkStatus (id3 : Id3Oracle) (lfm : Option LfmOracle)
    (now : Nat) (s : PlayerState)
    (vol mute curpos totlen iuri status mode eq loopv title artist : String)
    (cp : Int) (uri : String)
    (hcp : pyInt curpos = some cp) (hu : decodeHexStr iuri = some uri) :
    updateDict id3 lfm now s
      (mkStatus vol mute curpos totlen iuri status mode eq loopv title artist) =
    afterStage1 id3 lfm
      (mkStatus vol mute curpos totlen iuri status mode eq loopv title artist)
      (stage1Str now cp uri vol mute status mode eq loopv s) := by
  simp [updateDict, mkStatus, jLookup, pyIntOfJson, hcp, hexField, hu,
        stateOf, sourceOf, soundModeOf, shuffleOf, stage1Str]

theorem newTrackCheck_mk_true
    (vol mute curpos totlen iuri status mode eq loopv title artist : String)
    (s1 : PlayerState) (tl : Int)
    (h : s1.duration ≠ some (Int.tdiv tl 1000) ∨
      titleDiffers (.str title) s1.mediaTitle = true) :
    newTrackCheck
      (mkStatus vol mute curpos totlen iuri status mode eq loopv title artist)
      s1 tl = .ok true := by
  unfold newTrackCheck
  rcases h with h | h
  · simp [h]
  · by_cases hd : s1.duration = some (Int.tdiv tl 1000) <;>
      simp [hd, mkStatus, jLookup, h]

theorem newTrackCheck_mk_false
    (vol mute curpos totlen iuri status mode eq loopv title artist : String)
    (s1 : PlayerState) (tl : Int)
    (hd : s1.duration = some (Int.tdiv tl 1000))
    (ht : titleDiffers (.str title) s1.mediaTitle = false) :
    newTrackCheck
      (mkStatus vol mute curpos totlen iuri status mode eq loopv title artist)
      s1 tl = .ok false := by
  unfold newTrackCheck
  simp [hd, mkStatus, jLookup, ht]

/-- A refresh whose payload leaves duration and raw title unchanged: only the
always-updated fields change, and neither decoding of `Title`/`Artist` nor
any enrichment happens. -/
theorem update_mk_oldtrack (id3 : Id3Oracle) (lfm : Option LfmOracle)
    (now : Nat) (s : PlayerState)
    (vol mute curpos totlen iuri status mode eq loopv title artist : String)
    (cp tl : Int) (uri : String)
    (hcp : pyInt curpos = some cp) (hu : decodeHexStr iuri = some uri)
    (htl : pyInt totlen = some tl)
    (hd : s.duration = some (Int.tdiv tl 1000))
    (ht : titleDiffers (.str title) s.mediaTitle = false) :
    update id3 lfm now s (.json (.obj
      (mkStatus vol mute curpos totlen iuri status mode eq loopv title artist))) =
    ⟨{ stage1Str now cp uri vol mute status mode eq loopv s with
        duration := some (Int.tdiv tl 1000) }, .returned true, 0, 0⟩ := by
  simp only [update]
  rw [updateDict_mkStatus id3 lfm now s vol mute curpos totlen iuri status
    mode eq loopv title artist cp uri hcp hu]
  have hck := newTrackCheck_mk_false vol mute curpos totlen iuri status mode
    eq loopv title artist (stage1Str now cp uri vol mute status mode eq loopv s)
    tl (by simpa [stage1Str] using hd) (by simpa [stage1Str] using ht)
  simp only [mkStatus] at hck
  simp [afterStage1, mkStatus, jLookup, pyIntOfJson, htl, hck, finishTrack]

/-- A refresh that takes the new-track path: the result is the new-track
block applied to the stage-1 state, with `_duration` then recomputed. -/
theorem update_mk_newtrack (id3 : Id3Oracle) (lfm : Option LfmOracle)
    (now : Nat) (s : PlayerState)
    (vol mute curpos totlen iuri status mode eq loopv title artist : String)
    (cp tl : Int) (uri : String)
    (hcp : pyInt curpos = some cp) (hu : decodeHexStr iuri = some uri)
    (htl : pyInt totlen = some tl)
    (hnew : s.duration ≠ some (Int.tdiv tl 1000) ∨
      titleDiffers (.str title) s.mediaTitle = true) :
    update id3 lfm now s (.json (.obj
      (mkStatus vol mute curpos totlen iuri status mode eq loopv title artist))) =
    (match applyNewTrack id3 lfm
        (mkStatus vol mute curpos totlen iuri status mode eq loopv title artist)
        (.str totlen) (stage1Str now cp uri vol mute status mode eq loopv s) with
     | .ok s2 i l =>
        ⟨{ s2 with duration := some (Int.tdiv tl 1000) }, .returned true, i, l⟩
     | .raised s2 e i l => ⟨s2, .raised e, i, l⟩) := by
  simp only [update]
  rw [updateDict_mkStatus id3 lfm now s vol mute curpos totlen iuri status
    mode eq loopv title artist cp uri hcp hu]
  have hck := newTrackCheck_mk_true vol mute curpos totlen iuri status mode
    eq loopv title artist (stage1Str now cp uri vol mute status mode eq loopv s)
    tl (by simpa [stage1Str] using hnew)
  simp only [mkStatus] at hck
  simp [afterStage1, mkStatus, jLookup, pyIntOfJson, htl, hck, finishTrack]

theorem applyNewTrack_spotify (id3 : Id3Oracle) (lfm : Option LfmOracle)
    (vol mute curpos totlen iuri status mode eq loopv title artist : String)
    (jtot : Json) (s1 : PlayerState) (tt ta : String)
    (htt : decodeHexStr title = some tt) (hta : decodeHexStr artist = some ta)
    (h1 : tt = "Unknown") (h2 : ta = "Unknown") :
    applyNewTrack id3 lfm
      (mkStatus vol mute curpos totlen iuri status mode eq loopv title artist)
      jtot s1 =
    .ok { s1 with mediaTitle := some "Spotify", mediaArtist := some "Spotify" }
      0 0 := by
  simp [applyNewTrack, mkStatus, jLookup, hexField, htt, hta,
        isPlayingSpotify, h1, h2]

theorem applyNewTrack_radio (id3 : Id3Oracle) (lfm : Option LfmOracle)
    (vol mute curpos totlen iuri status mode eq loopv title artist : String)
    (jtot : Json) (s1 : PlayerState) (tt ta : String)
    (htt : decodeHexStr title = some tt) (hta : decodeHexStr artist = some ta)
    (hsp : ¬(tt = "Unknown" ∧ ta = "Unknown"))
    (hz : isTotlenStrZero jtot = true) :
    applyNewTrack id3 lfm
      (mkStatus vol mute curpos totlen iuri status mode eq loopv title artist)
      jtot s1 =
    .ok { s1 with mediaTitle := some tt, mediaArtist := some ta,
                  mediaAlbum := some "", mediaImageUrl := none } 0 0 := by
  simp [applyNewTrack, mkStatus, jLookup, hexField, htt, hta,
        isPlayingSpotify, hsp, hz]

theorem applyNewTrack_mp3_urlError (id3 : Id3Oracle) (lfm : Option LfmOracle)
    (vol mute curpos totlen iuri status mode eq loopv title artist : String)
    (jtot : Json) (s1 : PlayerState) (tt ta uri : String)
    (htt : decodeHexStr title = some tt) (hta : decodeHexStr artist = some ta)
    (hsp : ¬(tt = "Unknown" ∧ ta = "Unknown"))
    (hz : isTotlenStrZero jtot = false)
    (hmu : s1.mediaUri = some uri) (hmp : isPlayingMp3 uri = true)
    (hid : id3 uri = .urlError) :
    applyNewTrack id3 lfm
      (mkStatus vol mute curpos totlen iuri status mode eq loopv title artist)
      jtot s1 =
    .ok { s1 with mediaTitle := none, mediaArtist := none,
                  mediaAlbum := none, mediaImageUrl := none } 1 0 := by
  cases lfm <;>
    simp [applyNewTrack, mkStatus, jLookup, hexField, htt, hta,
          isPlayingSpotify, hsp, hz, hmu, hmp, updateFromId3, hid]

theorem applyNewTrack_mp3_noTag (id3 : Id3Oracle) (lfm : Option LfmOracle)
    (vol mute curpos totlen iuri status mode eq loopv title artist : String)
    (jtot : Json) (s1 : PlayerState) (tt ta uri : String)
    (htt : decodeHexStr title = some tt) (hta : decodeHexStr artist = some ta)
    (hsp : ¬(tt = "Unknown" ∧ ta = "Unknown"))
    (hz : isTotlenStrZero jtot = false)
    (hmu : s1.mediaUri = some uri) (hmp : isPlayingMp3 uri = true)
    (hid : id3 uri = .noTag) :
    applyNewTrack id3 lfm
      (mkStatus vol mute curpos totlen iuri status mode eq loopv title artist)
      jtot s1 =
    .raised { s1 with mediaTitle := some tt, mediaArtist := some ta }
      .attributeError 1 0 := by
  simp [applyNewTrack, mkStatus, jLookup, hexField, htt, hta,
        isPlayingSpotify, hsp, hz, hmu, hmp, updateFromId3, hid]

theorem applyNewTrack_mp3_tags_nolfm (id3 : Id3Oracle)
    (lfm : Option LfmOracle)
    (vol mute curpos totlen iuri status mode eq loopv title artist : String)
    (jtot : Json) (s1 : PlayerState) (tt ta uri : String)
    (tagT tagA tagL : Option String)
    (htt : decodeHexStr title = some tt) (hta : decodeHexStr artist = some ta)
    (hsp : ¬(tt = "Unknown" ∧ ta = "Unknown"))
    (hz : isTotlenStrZero jtot = false)
    (hmu : s1.mediaUri = some uri) (hmp : isPlayingMp3 uri = true)
    (hid : id3 uri = .tags tagT tagA tagL)
    (hskip : lfm = none ∨ tagT = none) :
    applyNewTrack id3 lfm
      (mkStatus vol mute curpos totlen iuri status mode eq loopv title artist)
      jtot s1 =
    .ok { s1 with mediaTitle := tagT, mediaArtist := tagA,
                  mediaAlbum := tagL, mediaImageUrl := none } 1 0 := by
  rcases hskip with h | h
  · subst h
    simp [applyNewTrack, mkStatus, jLookup, hexField, htt, hta,
          isPlayingSpotify, hsp, hz, hmu, hmp, updateFromId3, hid]
  · subst h
    cases lfm <;>
      simp [applyNewTrack, mkStatus, jLookup, hexField, htt, hta,
            isPlayingSpotify, hsp, hz, hmu, hmp, updateFromId3, hid]

theorem applyNewTrack_mp3_tags_lfm (id3 : Id3Oracle) (oracle : LfmOracle)
    (vol mute curpos totlen iuri status mode eq loopv title artist : String)
    (jtot : Json) (s1 : PlayerState) (tt ta uri t0 : String)
    (tagA tagL : Option String)
    (htt : decodeHexStr title = some tt) (hta : decodeHexStr artist = some ta)
    (hsp : ¬(tt = "Unknown" ∧ ta = "Unknown"))
    (hz : isTotlenStrZero jtot = false)
    (hmu : s1.mediaUri = some uri) (hmp : isPlayingMp3 uri = true)
    (hid : id3 uri = .tags (some t0) tagA tagL) :
    applyNewTrack id3 (some oracle)
      (mkStatus vol mute curpos totlen iuri status mode eq loopv title artist)
      jtot s1 =
    (match getLastfmCoverart (oracle tagA (some t0))
        { s1 with mediaTitle := some t0, mediaArtist := tagA,
                  mediaAlbum := tagL } with
     | .ok s4 => .ok s4 1 1
     | .error e =>
        .raised { s1 with mediaTitle := some t0, mediaArtist := tagA,
                          mediaAlbum := tagL } e 1 1) := by
  simp [applyNewTrack, mkStatus, jLookup, hexField, htt, hta,
        isPlayingSpotify, hsp, hz, hmu, hmp, updateFromId3, hid]

theorem applyNewTrack_other (id3 : Id3Oracle) (lfm : Option LfmOracle)
    (vol mute curpos totlen iuri status mode eq loopv title artist : String)
    (jtot : Json) (s1 : PlayerState) (tt ta uri : String)
    (htt : decodeHexStr title = some tt) (hta : decodeHexStr artist = some ta)
    (hsp : ¬(tt = "Unknown" ∧ ta = "Unknown"))
    (hz : isTotlenStrZero jtot = false)
    (hmu : s1.mediaUri = some uri) (hmp : isPlayingMp3 uri = false) :
    applyNewTrack id3 lfm
      (mkStatus vol mute curpos totlen iuri status mode eq loopv title artist)
      jtot s1 =
    .ok { s1 with mediaTitle := some tt, mediaArtist := some ta } 0 0 := by
  simp [applyNewTrack, mkStatus, jLookup, hexField, htt, hta,
        isPlayingSpotify, hsp, hz, hmu, hmp]

/-! ## Concrete fixtures used by the claim theorems -/

/-- A tag reader that always reads the fixed tag
`title "T" / artist "A" / album "L"`. -/
def id3Tags : Id3Oracle := fun _ => .tags (some "T") (some "A") (some "L")

/-- A tag reader that reads `title "Foo" / artist "Bar" / album "Alb"`. -/
def id3Foo : Id3Oracle := fun _ => .tags (some "Foo") (some "Bar") (some "Alb")

/-- A tag reader whose downloaded file yields no usable tag. -/
def id3NoTag : Id3Oracle := fun _ => .noTag

/-- A tag reader whose download always fails with `URLError`. -/
def id3UrlError : Id3Oracle := fun _ => .urlError

/-- A last.fm service that always answers with unparseable text. -/
def lfmBadText : LfmOracle := fun _ _ => .badText

/-- A last.fm service whose answer has an `image` array of length one. -/
def lfmShortArr : LfmOracle := fun _ _ =>
  .json (.obj [("track", .obj [("album", .obj [("image", .arr [.str "a"])])])])

/-- A status: vol 50, playing, `curpos` 1000 ms, `totlen` 180000 ms,
`iuri` = hex of `"http://h/a.mp3"`, `Title` = hex of `"Foo"`,
`Artist` = hex of `"Bar"`. -/
def statusFooMp3 : List (String × Json) :=
  mkStatus "50" "0" "1000" "180000" "687474703a2f2f682f612e6d7033" "play"
    "0" "0" "0" "466f6f" "426172"

/-- The same track status with `iuri` = hex of `"a.mp3"`. -/
def statusFooShort : List (String × Json) :=
  mkStatus "50" "0" "1000" "180000" "612e6d7033" "play" "0" "0" "0"
    "466f6f" "426172"

/-- The same track status with `iuri` = hex of `"http://h/a.mp3?s=1"`. -/
def statusFooQuery : List (String × Json) :=
  mkStatus "50" "0" "1000" "180000" "687474703a2f2f682f612e6d70333f733d31"
    "play" "0" "0" "0" "466f6f" "426172"

/-- The same track status with an `iuri` field that is not valid hex. -/
def statusBadHex : List (String × Json) :=
  mkStatus "50" "0" "1000" "180000" "zz" "play" "0" "0" "0" "466f6f" "426172"

/-- A device state that has already seen the 180-second track `"Foo"`:
duration 180 and the decoded title stored. -/
def prevFoo : PlayerState :=
  { initialState with duration := some 180, mediaTitle := some "Foo" }

/-! ## C1 -/

/-- C1 (code bug, line 358): with a previous state of durationSeconds 180 and
stored decoded title `"Foo"`, a status whose `totlen` is `"180000"` and whose
`Title` field `"466f6f"` hex-decodes to the very same `"Foo"` is nevertheless
classified as a new track and file enrichment is invoked (`id3Calls = 1`,
and the title is overwritten with the freshly read tag), because
`_is_playing_new_track` compares the hex-encoded field text with the stored
decoded title.  The claim (and the spec's track-change rule) requires this
status NOT to be treated as new. -/
theorem c1_code_behavior :
    decodeHexStr "466f6f" = some "Foo" ∧
    Int.tdiv 180000 1000 = 180 ∧
    prevFoo.duration = some 180 ∧
    prevFoo.mediaTitle = some "Foo" ∧
    (update id3Tags none 7 prevFoo (.json (.obj statusFooMp3))).id3Calls = 1 ∧
    (update id3Tags none 7 prevFoo
      (.json (.obj statusFooMp3))).state.mediaTitle = some "T" :=
  ⟨rfl, rfl, rfl, rfl, rfl, rfl⟩

/-! ## C7 -/

/-- C7: a status classified as a new track whose `Title` and `Artist` both
hex-decode to the literal `"Unknown"` yields display title and artist
`"Spotify"` and performs no enrichment, whatever every other field (including
`totlen` and an `.mp3`-ending URI) holds. -/
theorem c7_spotify (id3 : Id3Oracle) (lfm : Option LfmOracle) (now : Nat)
    (s : PlayerState)
    (vol mute curpos totlen iuri status mode eq loopv title artist : String)
    (cp tl : Int) (uri : String)
    (hcp : pyInt curpos = some cp) (hu : decodeHexStr iuri = some uri)
    (htl : pyInt totlen = some tl)
    (hnew : s.duration ≠ some (Int.tdiv tl 1000) ∨
      titleDiffers (.str title) s.mediaTitle = true)
    (htt : decodeHexStr title = some "Unknown")
    (hta : decodeHexStr artist = some "Unknown") :
    update id3 lfm now s (.json (.obj
      (mkStatus vol mute curpos totlen iuri status mode eq loopv title artist))) =
    ⟨{ stage1Str now cp uri vol mute status mode eq loopv s with
        mediaTitle := some "Spotify", mediaArtist := some "Spotify",
        duration := some (Int.tdiv tl 1000) }, .returned true, 0, 0⟩ := by
  rw [update_mk_newtrack id3 lfm now s vol mute curpos totlen iuri status
    mode eq loopv title artist cp tl uri hcp hu htl hnew]
  rw [applyNewTrack_spotify id3 lfm vol mute curpos totlen iuri status mode
    eq loopv title artist (.str totlen)
    (stage1Str now cp uri vol mute status mode eq loopv s)
    "Unknown" "Unknown" htt hta rfl rfl]

/-- Witness for C7: a concrete new-track status (vol 11, playing, `totlen`
`"0"`, URI `"a.mp3"`, `Title`/`Artist` both the hex of `"Unknown"`). -/
theorem c7_witness :
    update id3Tags none 3 initialState (.json (.obj
      (mkStatus "11" "1" "5000" "0" "612e6d7033" "play" "10" "1" "2"
        "556e6b6e6f776e" "556e6b6e6f776e"))) =
    ⟨{ stage1Str 3 5000 "a.mp3" "11" "1" "play" "10" "1" "2" initialState with
        mediaTitle := some "Spotify", mediaArtist := some "Spotify",
        duration := some (Int.tdiv 0 1000) }, .returned true, 0, 0⟩ :=
  c7_spotify id3Tags none 3 initialState "11" "1" "5000" "0" "612e6d7033"
    "play" "10" "1" "2" "556e6b6e6f776e" "556e6b6e6f776e" 5000 0 "a.mp3"
    rfl rfl rfl (Or.inl (by decide)) rfl rfl

/-! ## C8 -/

/-- C8: a status classified as a new track whose decoded title and artist are
not both `"Unknown"` and whose `totlen` field is the string `"0"` sets the
album to the empty string and clears the image URL, with no enrichment call,
even when the URI ends in `".mp3"` (the URI is universally quantified
here). -/
theorem c8_radio (id3 : Id3Oracle) (lfm : Option LfmOracle) (now : Nat)
    (s : PlayerState)
    (vol mute curpos iuri status mode eq loopv title artist : String)
    (cp : Int) (uri tt ta : String)
    (hcp : pyInt curpos = some cp) (hu : decodeHexStr iuri = some uri)
    (hnew : s.duration ≠ some 0 ∨
      titleDiffers (.str title) s.mediaTitle = true)
    (htt : decodeHexStr title = some tt)
    (hta : decodeHexStr artist = some ta)
    (hsp : ¬(tt = "Unknown" ∧ ta = "Unknown")) :
    update id3 lfm now s (.json (.obj
      (mkStatus vol mute curpos "0" iuri status mode eq loopv title artist))) =
    ⟨{ stage1Str now cp uri vol mute status mode eq loopv s with
        mediaTitle := some tt, mediaArtist := some ta,
        mediaAlbum := some "", mediaImageUrl := none,
        duration := some 0 }, .returned true, 0, 0⟩ := by
  rw [update_mk_newtrack id3 lfm now s vol mute curpos "0" iuri status
    mode eq loopv title artist cp 0 uri hcp hu rfl (by simpa using hnew)]
  rw [applyNewTrack_radio id3 lfm vol mute curpos "0" iuri status mode
    eq loopv title artist (.str "0")
    (stage1Str now cp uri vol mute status mode eq loopv s)
    tt ta htt hta hsp rfl]
  rfl

/-- Witness for C8: a concrete radio status whose URI is `"a.mp3"`. -/
theorem c8_witness :
    update id3Tags none 4 initialState (.json (.obj
      (mkStatus "50" "0" "1000" "0" "612e6d7033" "play" "0" "0" "0"
        "466f6f" "426172"))) =
    ⟨{ stage1Str 4 1000 "a.mp3" "50" "0" "play" "0" "0" "0" initialState with
        mediaTitle := some "Foo", mediaArtist := some "Bar",
        mediaAlbum := some "", mediaImageUrl := none,
        duration := some 0 }, .returned true, 0, 0⟩ :=
  c8_radio id3Tags none 4 initialState "50" "0" "1000" "612e6d7033" "play"
    "0" "0" "0" "466f6f" "426172" 1000 "a.mp3" "Foo" "Bar"
    rfl rfl (Or.inl (by decide)) rfl rfl (by decide)

/-! ## C3 -/

/-- C3 counterexample: on a JSON-object payload whose `iuri` field `"zz"` is
not valid hex, `update` does not leave the previous state unchanged and does
not return `True`: the `ValueError` from `bytearray.fromhex` propagates, and
volume, mute, seek position and position timestamp have already been
overwritten (the claim asserts every decode failure retains the previous
state and returns success). -/
theorem c3_counterexample :
    (update id3Tags none 5 initialState
      (.json (.obj statusBadHex))).outcome = .raised .valueError ∧
    (update id3Tags none 5 initialState
      (.json (.obj statusBadHex))).state.volume = some (.str "50") ∧
    initialState.volume = none ∧
    (update id3Tags none 5 initialState
      (.json (.obj statusBadHex))).state.positionUpdatedAt = some 5 :=
  ⟨rfl, rfl, rfl, rfl⟩

/-- C3 as amended: unparseable text and a non-object JSON root abort the
cycle with every field unchanged and `update` still returns `True` (only the
no-data transport failure returns `False`); but a hex field that fails to
decode instead raises `ValueError` out of `update`, after volume, mute, seek
position and the position timestamp have already been overwritten. -/
theorem c3_amended :
    (∀ (id3 : Id3Oracle) (lfm : Option LfmOracle) (now : Nat)
      (s : PlayerState) (r : LpResponse), nonDictResp r = true →
      update id3 lfm now s r = ⟨s, .returned (respHasData r), 0, 0⟩) ∧
    (∀ (id3 : Id3Oracle) (lfm : Option LfmOracle) (now : Nat)
      (s : PlayerState)
      (vol mute curpos totlen iuri status mode eq loopv title artist : String)
      (cp : Int), pyInt curpos = some cp → decodeHexStr iuri = none →
      update id3 lfm now s (.json (.obj (mkStatus vol mute curpos totlen iuri
        status mode eq loopv title artist))) =
      ⟨{ s with
          firstUpdate := false, volume := some (.str vol),
          muted := some (.str mute), seekPosition := some (Int.tdiv cp 1000),
          positionUpdatedAt := some now }, .raised .valueError, 0, 0⟩) := by
  constructor
  · exact update_nonDict
  · intro id3 lfm now s vol mute curpos totlen iuri status mode eq loopv
      title artist cp hcp hbad
    simp [update, updateDict, mkStatus, jLookup, pyIntOfJson, hcp,
      hexField, hbad]

/-- Witness for C3: the unparseable-text case at a concrete state, and the
bad-hex case on a concrete payload. -/
theorem c3_witness :
    update id3Tags none 3 prevFoo .badText =
      ⟨prevFoo, .returned true, 0, 0⟩ ∧
    update id3Tags none 3 prevFoo (.json (.obj (mkStatus "50" "0" "1000"
      "180000" "zz" "play" "0" "0" "0" "466f6f" "426172"))) =
      ⟨{ prevFoo with
          firstUpdate := false, volume := some (.str "50"),
          muted := some (.str "0"), seekPosition := some (Int.tdiv 1000 1000),
          positionUpdatedAt := some 3 }, .raised .valueError, 0, 0⟩ :=
  ⟨c3_amended.1 id3Tags none 3 prevFoo .badText rfl,
   c3_amended.2 id3Tags none 3 prevFoo "50" "0" "1000" "180000" "zz" "play"
     "0" "0" "0" "466f6f" "426172" 1000 rfl rfl⟩

/-! ## C4 -/

/-- C4 counterexample: file-tag enrichment on a new `.mp3` track whose
downloaded file yields no usable tag raises `AttributeError` out of `update`
(the claim asserts an enrichment failure is never fatal and clears the three
fields; here the call is fatal and the device-decoded title is kept). -/
theorem c4_counterexample :
    (update id3NoTag none 5 initialState
      (.json (.obj statusFooShort))).outcome = .raised .attributeError ∧
    (update id3NoTag none 5 initialState
      (.json (.obj statusFooShort))).id3Calls = 1 ∧
    (update id3NoTag none 5 initialState
      (.json (.obj statusFooShort))).state.mediaTitle = some "Foo" :=
  ⟨rfl, rfl, rfl⟩

/-- C4 as amended: when file-tag enrichment is invoked on a new track, a
fetch (`URLError`) failure clears title, artist and album (and, because the
cover-art branch is then skipped, the image URL), and `update` still returns
`True`; but a tag-parse failure instead raises `AttributeError` out of
`update`, leaving the device-decoded title and artist in place. -/
theorem c4_amended (id3 : Id3Oracle) (lfm : Option LfmOracle) (now : Nat)
    (s : PlayerState)
    (vol mute curpos totlen iuri status mode eq loopv title artist : String)
    (cp tl : Int) (uri tt ta : String)
    (hcp : pyInt curpos = some cp) (hu : decodeHexStr iuri = some uri)
    (htl : pyInt totlen = some tl)
    (hnew : s.duration ≠ some (Int.tdiv tl 1000) ∨
      titleDiffers (.str title) s.mediaTitle = true)
    (htt : decodeHexStr title = some tt)
    (hta : decodeHexStr artist = some ta)
    (hsp : ¬(tt = "Unknown" ∧ ta = "Unknown"))
    (hz : totlen ≠ "0") (hmp : isPlayingMp3 uri = true) :
    (id3 uri = .urlError →
      update id3 lfm now s (.json (.obj (mkStatus vol mute curpos totlen iuri
        status mode eq loopv title artist))) =
      ⟨{ stage1Str now cp uri vol mute status mode eq loopv s with
          mediaTitle := none, mediaArtist := none, mediaAlbum := none,
          mediaImageUrl := none, duration := some (Int.tdiv tl 1000) },
        .returned true, 1, 0⟩) ∧
    (id3 uri = .noTag →
      update id3 lfm now s (.json (.obj (mkStatus vol mute curpos totlen iuri
        status mode eq loopv title artist))) =
      ⟨{ stage1Str now cp uri vol mute status mode eq loopv s with
          mediaTitle := some tt, mediaArtist := some ta },
        .raised .attributeError, 1, 0⟩) := by
  constructor <;> intro hid <;>
    rw [update_mk_newtrack id3 lfm now s vol mute curpos totlen iuri status
      mode eq loopv title artist cp tl uri hcp hu htl hnew]
  · rw [applyNewTrack_mp3_urlError id3 lfm vol mute curpos totlen iuri status
      mode eq loopv title artist (.str totlen)
      (stage1Str now cp uri vol mute status mode eq loopv s) tt ta uri
      htt hta hsp (by simp [isTotlenStrZero, hz]) (by simp [stage1Str])
      hmp hid]
  · rw [applyNewTrack_mp3_noTag id3 lfm vol mute curpos totlen iuri status
      mode eq loopv title artist (.str totlen)
      (stage1Str now cp uri vol mute status mode eq loopv s) tt ta uri
      htt hta hsp (by simp [isTotlenStrZero, hz]) (by simp [stage1Str])
      hmp hid]

/-- Witness for C4: both halves at a concrete `.mp3` status; the fetch
failure clears the metadata non-fatally, the missing tag raises. -/
theorem c4_witness :
    update id3UrlError none 6 initialState (.json (.obj statusFooShort)) =
      ⟨{ stage1Str 6 1000 "a.mp3" "50" "0" "play" "0" "0" "0" initialState with
          mediaTitle := none, mediaArtist := none, mediaAlbum := none,
          mediaImageUrl := none, duration := some (Int.tdiv 180000 1000) },
        .returned true, 1, 0⟩ ∧
    update id3NoTag none 6 initialState (.json (.obj statusFooShort)) =
      ⟨{ stage1Str 6 1000 "a.mp3" "50" "0" "play" "0" "0" "0" initialState with
          mediaTitle := some "Foo", mediaArtist := some "Bar" },
        .raised .attributeError, 1, 0⟩ :=
  ⟨(c4_amended id3UrlError none 6 initialState "50" "0" "1000" "180000"
      "612e6d7033" "play" "0" "0" "0" "466f6f" "426172" 1000 180000 "a.mp3"
      "Foo" "Bar" rfl rfl rfl (Or.inl (by decide)) rfl rfl (by decide)
      (by decide) rfl).1 rfl,
   (c4_amended id3NoTag none 6 initialState "50" "0" "1000" "180000"
      "612e6d7033" "play" "0" "0" "0" "466f6f" "426172" 1000 180000 "a.mp3"
      "Foo" "Bar" rfl rfl rfl (Or.inl (by decide)) rfl rfl (by decide)
      (by decide) rfl).2 rfl⟩

/-! ## C5 -/

/-- C5 counterexample: a cover-art lookup whose response is unparseable text
raises `ValueError` out of `update` (`json.loads` sits outside the `try`),
and a response whose `image` array is too short raises `IndexError` — the
claim asserts every lookup failure merely leaves the image URL unset. -/
theorem c5_counterexample :
    (update id3Tags (some lfmBadText) 5 initialState
      (.json (.obj statusFooShort))).outcome = .raised .valueError ∧
    (update id3Tags (some lfmBadText) 5 initialState
      (.json (.obj statusFooShort))).lfmCalls = 1 ∧
    (update id3Tags (some lfmShortArr) 5 initialState
      (.json (.obj statusFooShort))).outcome = .raised .indexError :=
  ⟨rfl, rfl, rfl⟩

/-- C5 as amended: when the lookup's response parses as JSON, a missing
dictionary key anywhere along `track → album → image[2] → #text` (a
`KeyError`, or a `ValueError`) sets the image URL to `None` and touches no
other field, and a found value is stored with no other field touched; but a
missing response raises `TypeError`, unparseable text raises `ValueError`,
and a non-dictionary intermediate or a too-short `image` array raises
(`TypeError`/`IndexError`) out of the lookup. -/
theorem c5_amended :
    (∀ (s : PlayerState) (j v : Json), lfmPath j = .ok v →
      getLastfmCoverart (.json j) s = .ok { s with mediaImageUrl := some v }) ∧
    (∀ (s : PlayerState) (j : Json) (e : Exn), lfmPath j = .error e →
      e = .keyError ∨ e = .valueError →
      getLastfmCoverart (.json j) s = .ok { s with mediaImageUrl := none }) ∧
    (∀ (s : PlayerState) (j : Json) (e : Exn), lfmPath j = .error e →
      ¬(e = .keyError ∨ e = .valueError) →
      getLastfmCoverart (.json j) s = .error e) ∧
    (∀ s : PlayerState, getLastfmCoverart .noData s = .error .typeError) ∧
    (∀ s : PlayerState, getLastfmCoverart .badText s = .error .valueError) := by
  refine ⟨?_, ?_, ?_, fun _ => rfl, fun _ => rfl⟩
  · intro s j v h
    simp [getLastfmCoverart, h]
  · intro s j e h he
    rcases he with he | he <;> subst he <;> simp [getLastfmCoverart, h]
  · intro s j e h he
    cases e <;> simp_all [getLastfmCoverart]

/-- Witness for C5: a response missing the `track` key yields an unset image
URL and an otherwise untouched state. -/
theorem c5_witness :
    getLastfmCoverart (.json (.obj [("x", .null)])) prevFoo =
      .ok { prevFoo with mediaImageUrl := none } :=
  c5_amended.2.1 prevFoo (.obj [("x", .null)]) .keyError rfl (Or.inl rfl)

/-! ## C6 -/

/-- The "path" of a track URI in the sense of the specification's file
heuristic: the URI text up to the first query (`?`) or fragment (`#`)
delimiter.  This definition follows the spec's wording; the code itself has
no URI parsing. -/
def specUriPath (u : String) : String :=
  String.mk (u.toList.takeWhile (fun c => c ≠ '?' ∧ c ≠ '#'))

/-- C6 counterexample: for the track URI `"http://h/a.mp3?s=1"` the URI's
*path* ends in `".mp3"`, yet `update` does not invoke file enrichment — the
code tests the full URI string, whose last four characters are `"s=1"`.  The
claim, which predicates enrichment on the URI's path, is therefore false at
this input. -/
theorem c6_counterexample :
    decodeHexStr "687474703a2f2f682f612e6d70333f733d31" =
      some "http://h/a.mp3?s=1" ∧
    specUriPath "http://h/a.mp3?s=1" = "http://h/a.mp3" ∧
    isPlayingMp3 (specUriPath "http://h/a.mp3?s=1") = true ∧
    (update id3Tags none 5 initialState
      (.json (.obj statusFooQuery))).id3Calls = 0 ∧
    (update id3Tags none 5 initialState
      (.json (.obj statusFooQuery))).state.mediaTitle = some "Foo" ∧
    (update id3Tags none 5 initialState
      (.json (.obj statusFooQuery))).outcome = .returned true :=
  ⟨rfl, rfl, rfl, rfl, rfl, rfl⟩

/-- C6 as amended: on a new track where the Spotify and radio cases do not
apply, file enrichment is invoked exactly when the *full URI string*,
compared case-sensitively, ends in `".mp3"`; otherwise title and artist stay
as decoded from the device and no enrichment call is made. -/
theorem c6_amended (id3 : Id3Oracle) (lfm : Option LfmOracle) (now : Nat)
    (s : PlayerState)
    (vol mute curpos totlen iuri status mode eq loopv title artist : String)
    (cp tl : Int) (uri tt ta : String)
    (hcp : pyInt curpos = some cp) (hu : decodeHexStr iuri = some uri)
    (htl : pyInt totlen = some tl)
    (hnew : s.duration ≠ some (Int.tdiv tl 1000) ∨
      titleDiffers (.str title) s.mediaTitle = true)
    (htt : decodeHexStr title = some tt)
    (hta : decodeHexStr artist = some ta)
    (hsp : ¬(tt = "Unknown" ∧ ta = "Unknown"))
    (hz : totlen ≠ "0") :
    (isPlayingMp3 uri = true →
      (update id3 lfm now s (.json (.obj (mkStatus vol mute curpos totlen iuri
        status mode eq loopv title artist)))).id3Calls = 1) ∧
    (isPlayingMp3 uri = false →
      update id3 lfm now s (.json (.obj (mkStatus vol mute curpos totlen iuri
        status mode eq loopv title artist))) =
      ⟨{ stage1Str now cp uri vol mute status mode eq loopv s with
          mediaTitle := some tt, mediaArtist := some ta,
          duration := some (Int.tdiv tl 1000) }, .returned true, 0, 0⟩) := by
  have hzf : isTotlenStrZero (.str totlen) = false := by
    simp [isTotlenStrZero, hz]
  have hmu : (stage1Str now cp uri vol mute status mode eq loopv s).mediaUri
      = some uri := by simp [stage1Str]
  constructor <;> intro hmp <;>
    rw [update_mk_newtrack id3 lfm now s vol mute curpos totlen iuri status
      mode eq loopv title artist cp tl uri hcp hu htl hnew]
  · rcases hid : id3 uri with _ | _ | ⟨tagT, tagA, tagL⟩
    · rw [applyNewTrack_mp3_urlError id3 lfm vol mute curpos totlen iuri
        status mode eq loopv title artist (.str totlen) _ tt ta uri
        htt hta hsp hzf hmu hmp hid]
    · rw [applyNewTrack_mp3_noTag id3 lfm vol mute curpos totlen iuri
        status mode eq loopv title artist (.str totlen) _ tt ta uri
        htt hta hsp hzf hmu hmp hid]
    · cases lfm with
      | none =>
        rw [applyNewTrack_mp3_tags_nolfm id3 none vol mute curpos totlen iuri
          status mode eq loopv title artist (.str totlen) _ tt ta uri
          tagT tagA tagL htt hta hsp hzf hmu hmp hid (Or.inl rfl)]
      | some oracle =>
        cases tagT with
        | none =>
          rw [applyNewTrack_mp3_tags_nolfm id3 (some oracle) vol mute curpos
            totlen iuri status mode eq loopv title artist (.str totlen) _
            tt ta uri none tagA tagL htt hta hsp hzf hmu hmp hid
            (Or.inr rfl)]
        | some t0 =>
          rw [applyNewTrack_mp3_tags_lfm id3 oracle vol mute curpos
            totlen iuri status mode eq loopv title artist (.str totlen) _
            tt ta uri t0 tagA tagL htt hta hsp hzf hmu hmp hid]
          rcases getLastfmCoverart (oracle tagA (some t0)) _ with s4 | e <;>
            rfl
  · rw [applyNewTrack_other id3 lfm vol mute curpos totlen iuri status mode
      eq loopv title artist (.str totlen) _ tt ta uri htt hta hsp hzf hmu hmp]

/-- Witness for C6: both halves at concrete statuses — the `"a.mp3"` URI is
enriched once, the `"http://h/a.mp3?s=1"` URI is not enriched and keeps the
decoded title and artist. -/
theorem c6_witness :
    (update id3Tags none 5 initialState
      (.json (.obj statusFooShort))).id3Calls = 1 ∧
    update id3Tags none 5 initialState (.json (.obj statusFooQuery)) =
      ⟨{ stage1Str 5 1000 "http://h/a.mp3?s=1" "50" "0" "play" "0" "0" "0"
          initialState with
          mediaTitle := some "Foo", mediaArtist := some "Bar",
          duration := some (Int.tdiv 180000 1000) }, .returned true, 0, 0⟩ :=
  ⟨(c6_amended id3Tags none 5 initialState "50" "0" "1000" "180000"
      "612e6d7033" "play" "0" "0" "0" "466f6f" "426172" 1000 180000 "a.mp3"
      "Foo" "Bar" rfl rfl rfl (Or.inl (by decide)) rfl rfl (by decide)
      (by decide)).1 rfl,
   (c6_amended id3Tags none 5 initialState "50" "0" "1000" "180000"
      "687474703a2f2f682f612e6d70333f733d31" "play" "0" "0" "0" "466f6f"
      "426172" 1000 180000 "http://h/a.mp3?s=1" "Foo" "Bar" rfl rfl rfl
      (Or.inl (by decide)) rfl rfl (by decide) (by decide)).2 rfl⟩

/-! ## C9 -/

theorem ackFailed_iff (resp : Option String) :
    ackFailed resp = true ↔ resp ≠ some "OK" := by
  simp [ackFailed]

theorem reverseLookup_mem (tbl : List (String × String)) (name : String)
    (h : name ∈ tbl.map Prod.snd) :
    ∃ k, reverseLookup tbl name = some k := by
  induction tbl with
  | nil => simp at h
  | cons p rest ih =>
    obtain ⟨k, v⟩ := p
    by_cases hv : v = name
    · exact ⟨k, by simp [reverseLookup, hv]⟩
    · obtain ⟨k2, hk2⟩ := ih (by
        rcases List.mem_map.mp h with ⟨b, hb, hbe⟩
        rcases List.mem_cons.mp hb with rfl | hb2
        · exact absurd hbe hv
        · exact List.mem_map.mpr ⟨b, hb2, hbe⟩)
      exact ⟨k2, by simp [reverseLookup, hv, hk2]⟩

/-- C9: every control command leaves every field of the device state
unchanged and finishes without raising; the failure warning is logged exactly
when the response differs from the literal `"OK"` (a transport failure being
the absent response).  `play_media` logs an error and sends nothing on a
non-music type; `select_sound_mode` is covered for every name from the
sound-mode table, whose reverse lookup always succeeds for such names. -/
theorem c9_commands :
    (∀ (s : PlayerState) (resp : Option String),
      turn_off s resp = (s, "getShutdown", ackFailed resp) ∧
      (ackFailed resp = true ↔ resp ≠ some "OK")) ∧
    (∀ (s : PlayerState) (v : ℚ) (resp : Option String),
      (set_volume_level s v resp).1 = s ∧
      ((set_volume_level s v resp).2.2 = true ↔ resp ≠ some "OK")) ∧
    (∀ (s : PlayerState) (m : Bool) (resp : Option String),
      (mute_volume s m resp).1 = s ∧
      ((mute_volume s m resp).2.2 = true ↔ resp ≠ some "OK")) ∧
    (∀ (s : PlayerState) (resp : Option String),
      (media_play s resp).1 = s ∧
      ((media_play s resp).2.2 = true ↔ resp ≠ some "OK")) ∧
    (∀ (s : PlayerState) (resp : Option String),
      (media_pause s resp).1 = s ∧
      ((media_pause s resp).2.2 = true ↔ resp ≠ some "OK")) ∧
    (∀ (s : PlayerState) (resp : Option String),
      (media_next_track s resp).1 = s ∧
      ((media_next_track s resp).2.2 = true ↔ resp ≠ some "OK")) ∧
    (∀ (s : PlayerState) (resp : Option String),
      (media_previous_track s resp).1 = s ∧
      ((media_previous_track s resp).2.2 = true ↔ resp ≠ some "OK")) ∧
    (∀ (s : PlayerState) (p : Int) (resp : Option String),
      (media_seek s p resp).1 = s ∧
      ((media_seek s p resp).2.2 = true ↔ resp ≠ some "OK")) ∧
    (∀ (s : PlayerState) (mt mid : String) (resp : Option String),
      (play_media s mt mid resp).1 = s ∧
      (mt = MEDIA_TYPE_MUSIC →
        ((play_media s mt mid resp).2.2 = true ↔ resp ≠ some "OK")) ∧
      (mt ≠ MEDIA_TYPE_MUSIC →
        play_media s mt mid resp = (s, none, false))) ∧
    (∀ (s : PlayerState) (src : String) (resp : Option String),
      (select_source s src resp).1 = s ∧
      ((select_source s src resp).2.2 = true ↔ resp ≠ some "OK")) ∧
    (∀ (s : PlayerState) (name mode : String) (resp : Option String),
      reverseLookup SOUND_MODES name = some mode →
      select_sound_mode s name resp =
        .ok (s, "setPlayerCmd:equalizer:" ++ mode, ackFailed resp)) ∧
    (∀ name, name ∈ SOUND_MODES.map Prod.snd →
      ∃ mode, reverseLookup SOUND_MODES name = some mode) ∧
    (∀ (s : PlayerState) (b : Bool) (resp : Option String),
      (set_shuffle s b resp).1 = s ∧
      ((set_shuffle s b resp).2.2 = true ↔ resp ≠ some "OK")) ∧
    (∀ (s : PlayerState) (p : Nat) (resp : Option String),
      (preset_button s p resp).1 = s ∧
      ((preset_button s p resp).2.2 = true ↔ resp ≠ some "OK")) := by
  refine ⟨fun s resp => ⟨rfl, ackFailed_iff resp⟩,
    fun s v resp => ⟨rfl, ackFailed_iff resp⟩,
    fun s m resp => ⟨rfl, ackFailed_iff resp⟩,
    fun s resp => ⟨rfl, ackFailed_iff resp⟩,
    fun s resp => ⟨rfl, ackFailed_iff resp⟩,
    fun s resp => ⟨rfl, ackFailed_iff resp⟩,
    fun s resp => ⟨rfl, ackFailed_iff resp⟩,
    fun s p resp => ⟨rfl, ackFailed_iff resp⟩,
    fun s mt mid resp => ⟨?_, ?_, ?_⟩,
    fun s src resp => ⟨rfl, ackFailed_iff resp⟩,
    fun s name mode resp h => by simp [select_sound_mode, h],
    fun name h => reverseLookup_mem SOUND_MODES name h,
    fun s b resp => ⟨rfl, ackFailed_iff resp⟩,
    fun s p resp => ⟨rfl, ackFailed_iff resp⟩⟩
  · unfold play_media
    split <;> rfl
  · intro hm
    simp only [play_media, hm, ne_eq, not_true_eq_false, if_false]
    exact ackFailed_iff resp
  · intro hm
    simp [play_media, hm]

/-- Witness for C9: concrete applications covering the hypothesis-bearing
parts — a valid sound-mode name on a transport failure, and a music-typed
`play_media` on a non-`"OK"` reply. -/
theorem c9_witness :
    select_sound_mode initialState "Jazz" none =
      .ok (initialState, "setPlayerCmd:equalizer:3", true) ∧
    (play_media initialState "music" "u" none).2.2 = true ∧
    turn_off prevFoo (some "FAIL") = (prevFoo, "getShutdown", true) := by
  obtain ⟨ht, -, -, -, -, -, -, -, hpm, -, hsm, -, -, -⟩ := c9_commands
  refine ⟨(hsm initialState "Jazz" "3" none rfl).trans rfl, ?_, ?_⟩
  · exact ((hpm initialState "music" "u" none).2.1 rfl).mpr (by simp)
  · exact ((ht prevFoo (some "FAIL")).1).trans rfl

/-! ## C10 -/

/-- A sequence of refresh cycles: each step is a poll instant and the
response it yielded. -/
def applyAll (id3 : Id3Oracle) (lfm : Option LfmOracle)
    (steps : List (Nat × LpResponse)) (s : PlayerState) : PlayerState :=
  match steps with
  | [] => s
  | p :: rest => applyAll id3 lfm rest (update id3 lfm p.1 s p.2).state

theorem applyAll_nonDict (id3 : Id3Oracle) (lfm : Option LfmOracle)
    (steps : List (Nat × LpResponse)) (s : PlayerState)
    (h : ∀ p ∈ steps, nonDictResp p.2 = true) :
    applyAll id3 lfm steps s = s := by
  induction steps generalizing s with
  | nil => rfl
  | cons p rest ih =>
    have h1 := h p (List.mem_cons_self p rest)
    show applyAll id3 lfm rest (update id3 lfm p.1 s p.2).state = s
    rw [update_nonDict id3 lfm p.1 s p.2 h1]
    exact ih s (fun q hq => h q (List.mem_cons_of_mem p hq))

/-- C10: after construction and any number of refreshes none of which
processed a JSON-object payload, the stored volume and mute attributes are
still unset and reading `volume_level` or `is_volume_muted` raises
`TypeError`, while every other media property returns its unset value without
raising; and any such refresh that did receive data still reported
success. -/
theorem c10_property_access (id3 : Id3Oracle) (lfm : Option LfmOracle)
    (steps : List (Nat × LpResponse))
    (h : ∀ p ∈ steps, nonDictResp p.2 = true) :
    applyAll id3 lfm steps initialState = initialState ∧
    (applyAll id3 lfm steps initialState).volume = none ∧
    (applyAll id3 lfm steps initialState).muted = none ∧
    volume_level (applyAll id3 lfm steps initialState) =
      .error .typeError ∧
    is_volume_muted (applyAll id3 lfm steps initialState) =
      .error .typeError ∧
    source (applyAll id3 lfm steps initialState) = none ∧
    media_title (applyAll id3 lfm steps initialState) = none ∧
    media_artist (applyAll id3 lfm steps initialState) = none ∧
    media_album_name (applyAll id3 lfm steps initialState) = none ∧
    media_image_url (applyAll id3 lfm steps initialState) = none ∧
    media_position (applyAll id3 lfm steps initialState) = none ∧
    media_duration (applyAll id3 lfm steps initialState) = none ∧
    shuffle (applyAll id3 lfm steps initialState) = none ∧
    (∀ (n : Nat) (st : PlayerState) (r : LpResponse),
      nonDictResp r = true → r ≠ .noData →
      (update id3 lfm n st r).outcome = .returned true) := by
  rw [applyAll_nonDict id3 lfm steps initialState h]
  refine ⟨rfl, rfl, rfl, rfl, rfl, rfl, rfl, rfl, rfl, rfl, rfl, rfl, rfl,
    ?_⟩
  intro n st r h1 h2
  rw [update_nonDict id3 lfm n st r h1]
  cases r with
  | noData => exact absurd rfl h2
  | badText => rfl
  | json j => rfl

/-- The refresh sequence used by the C10 witness: unparseable text, a
non-object JSON root, and a transport failure. -/
def c10Steps : List (Nat × LpResponse) :=
  [(0, .badText), (1, .json (.arr [])), (2, .noData)]

/-- Witness for C10 at a concrete refresh sequence. -/
theorem c10_witness :
    volume_level (applyAll id3Tags none c10Steps initialState) =
      .error .typeError ∧
    is_volume_muted (applyAll id3Tags none c10Steps initialState) =
      .error .typeError ∧
    media_title (applyAll id3Tags none c10Steps initialState) = none ∧
    (update id3Tags none 1 initialState
      (.json (.arr []))).outcome = .returned true := by
  obtain ⟨-, -, -, h4, h5, -, h7, -, -, -, -, -, -, hret⟩ :=
    c10_property_access id3Tags none c10Steps
      (by intro p hp; fin_cases hp <;> rfl)
  exact ⟨h4, h5, h7, hret 1 initialState (.json (.arr [])) rfl (by simp)⟩

/-! ## C2 -/

/-- Equality of two device states on every field except
`positionUpdatedAt`. -/
def samePlayerStateExceptPos (a b : PlayerState) : Prop :=
  a.state = b.state ∧ a.volume = b.volume ∧ a.muted = b.muted ∧
  a.source = b.source ∧ a.soundMode = b.soundMode ∧
  a.seekPosition = b.seekPosition ∧ a.duration = b.duration ∧
  a.shuffle = b.shuffle ∧ a.mediaAlbum = b.mediaAlbum ∧
  a.mediaArtist = b.mediaArtist ∧ a.mediaTitle = b.mediaTitle ∧
  a.mediaImageUrl = b.mediaImageUrl ∧ a.mediaUri = b.mediaUri ∧
  a.firstUpdate = b.firstUpdate

/-- A successful cover-art lookup only ever writes `mediaImageUrl`, with a
value that depends on the response alone. -/
theorem getLastfm_ok_shape (resp : LfmResponse) (s s4 : PlayerState)
    (h : getLastfmCoverart resp s = .ok s4) :
    ∃ img : Option Json, s4 = { s with mediaImageUrl := img } ∧
      ∀ s5, getLastfmCoverart resp s5 =
        .ok { s5 with mediaImageUrl := img } := by
  cases resp with
  | noData => simp [getLastfmCoverart] at h
  | badText => simp [getLastfmCoverart] at h
  | json j =>
    cases hp : lfmPath j with
    | ok v =>
      refine ⟨some v, ?_, fun s5 => by simp [getLastfmCoverart, hp]⟩
      simp [getLastfmCoverart, hp] at h
      exact h.symm
    | error e =>
      cases e <;> simp [getLastfmCoverart, hp] at h <;>
        exact ⟨none, h.symm, fun s5 => by simp [getLastfmCoverart, hp]⟩

/-- A refresh of a string-field status that returned `True` parsed `curpos`
and `totlen` and decoded `iuri`. -/
theorem update_mk_ok_inv (id3 : Id3Oracle) (lfm : Option LfmOracle)
    (now : Nat) (s : PlayerState)
    (vol mute curpos totlen iuri status mode eq loopv title artist : String)
    (h : (update id3 lfm now s (.json (.obj (mkStatus vol mute curpos totlen
      iuri status mode eq loopv title artist)))).outcome = .returned true) :
    ∃ cp uri tl, pyInt curpos = some cp ∧ decodeHexStr iuri = some uri ∧
      pyInt totlen = some tl := by
  rcases hcp : pyInt curpos with _ | cp
  · exfalso
    simp [update, updateDict, mkStatus, jLookup, pyIntOfJson, hcp] at h
  rcases hu : decodeHexStr iuri with _ | uri
  · exfalso
    simp [update, updateDict, mkStatus, jLookup, pyIntOfJson, hcp,
      hexField, hu] at h
  rcases htl : pyInt totlen with _ | tl
  · exfalso
    simp only [update] at h
    rw [updateDict_mkStatus id3 lfm now s vol mute curpos totlen iuri status
      mode eq loopv title artist cp uri hcp hu] at h
    simp [afterStage1, mkStatus, jLookup, pyIntOfJson, htl] at h
  exact ⟨cp, uri, tl, rfl, rfl, rfl⟩

/-- The response holding a string-field status payload. -/
def statusJson (vol mute curpos totlen iuri status mode eq loopv title
    artist : String) : LpResponse :=
  .json (.obj (mkStatus vol mute curpos totlen iuri status mode eq loopv
    title artist))

/-- Re-applying response `r` at state `R` succeeds and reproduces `R` except
for the position timestamp, which becomes the new poll instant. -/
def idempotentAt (id3 : Id3Oracle) (lfm : Option LfmOracle) (now2 : Nat)
    (R : PlayerState) (r : LpResponse) : Prop :=
  (update id3 lfm now2 R r).outcome = .returned true ∧
  samePlayerStateExceptPos (update id3 lfm now2 R r).state R ∧
  (update id3 lfm now2 R r).state.positionUpdatedAt = some now2

theorem c2_aux_oldtrack (id3 : Id3Oracle) (lfm : Option LfmOracle)
    (now1 now2 : Nat) (s0 : PlayerState)
    (vol mute curpos totlen iuri status mode eq loopv title artist : String)
    (cp tl : Int) (uri : String)
    (hcp : pyInt curpos = some cp) (hu : decodeHexStr iuri = some uri)
    (htl : pyInt totlen = some tl)
    (ht1 : titleDiffers (.str title) s0.mediaTitle = false)
    (R : PlayerState)
    (hR : R = { stage1Str now1 cp uri vol mute status mode eq loopv s0 with
      duration := some (Int.tdiv tl 1000) }) :
    idempotentAt id3 lfm now2 R
      (statusJson vol mute curpos totlen iuri status mode eq loopv title
        artist) := by
  have hd2 : R.duration = some (Int.tdiv tl 1000) := by rw [hR]
  have ht2 : titleDiffers (.str title) R.mediaTitle = false := by
    rw [hR]; simpa [stage1Str] using ht1
  unfold idempotentAt statusJson
  rw [update_mk_oldtrack id3 lfm now2 R vol mute curpos totlen iuri status
    mode eq loopv title artist cp tl uri hcp hu htl hd2 ht2]
  refine ⟨rfl, ?_, by simp [stage1Str]⟩
  subst hR
  simp [samePlayerStateExceptPos, stage1Str]

theorem c2_aux_spotify (id3 : Id3Oracle) (lfm : Option LfmOracle)
    (now1 now2 : Nat) (s0 : PlayerState)
    (vol mute curpos totlen iuri status mode eq loopv title artist : String)
    (cp tl : Int) (uri tt ta : String)
    (hcp : pyInt curpos = some cp) (hu : decodeHexStr iuri = some uri)
    (htl : pyInt totlen = some tl)
    (htt : decodeHexStr title = some tt) (hta : decodeHexStr artist = some ta)
    (h1 : tt = "Unknown") (h2 : ta = "Unknown")
    (R : PlayerState)
    (hR : R = { stage1Str now1 cp uri vol mute status mode eq loopv s0 with
      mediaTitle := some "Spotify", mediaArtist := some "Spotify",
      duration := some (Int.tdiv tl 1000) }) :
    idempotentAt id3 lfm now2 R
      (statusJson vol mute curpos totlen iuri status mode eq loopv title
        artist) := by
  have hd2 : R.duration = some (Int.tdiv tl 1000) := by rw [hR]
  unfold idempotentAt statusJson
  cases ht2 : titleDiffers (Json.str title) R.mediaTitle with
  | false =>
    rw [update_mk_oldtrack id3 lfm now2 R vol mute curpos totlen iuri status
      mode eq loopv title artist cp tl uri hcp hu htl hd2 ht2]
    refine ⟨rfl, ?_, by simp [stage1Str]⟩
    subst hR
    simp [samePlayerStateExceptPos, stage1Str]
  | true =>
    rw [update_mk_newtrack id3 lfm now2 R vol mute curpos totlen iuri status
      mode eq loopv title artist cp tl uri hcp hu htl (Or.inr ht2)]
    rw [applyNewTrack_spotify id3 lfm vol mute curpos totlen iuri status
      mode eq loopv title artist (.str totlen)
      (stage1Str now2 cp uri vol mute status mode eq loopv R) tt ta htt hta
      h1 h2]
    refine ⟨rfl, ?_, by simp [stage1Str]⟩
    subst hR
    simp [samePlayerStateExceptPos, stage1Str]

theorem c2_aux_radio (id3 : Id3Oracle) (lfm : Option LfmOracle)
    (now1 now2 : Nat) (s0 : PlayerState)
    (vol mute curpos totlen iuri status mode eq loopv title artist : String)
    (cp tl : Int) (uri tt ta : String)
    (hcp : pyInt curpos = some cp) (hu : decodeHexStr iuri = some uri)
    (htl : pyInt totlen = some tl)
    (htt : decodeHexStr title = some tt) (hta : decodeHexStr artist = some ta)
    (hsp : ¬(tt = "Unknown" ∧ ta = "Unknown"))
    (hz : isTotlenStrZero (.str totlen) = true)
    (R : PlayerState)
    (hR : R = { stage1Str now1 cp uri vol mute status mode eq loopv s0 with
      mediaTitle := some tt, mediaArtist := some ta, mediaAlbum := some "",
      mediaImageUrl := none, duration := some (Int.tdiv tl 1000) }) :
    idempotentAt id3 lfm now2 R
      (statusJson vol mute curpos totlen iuri status mode eq loopv title
        artist) := by
  have hd2 : R.duration = some (Int.tdiv tl 1000) := by rw [hR]
  unfold idempotentAt statusJson
  cases ht2 : titleDiffers (Json.str title) R.mediaTitle with
  | false =>
    rw [update_mk_oldtrack id3 lfm now2 R vol mute curpos totlen iuri status
      mode eq loopv title artist cp tl uri hcp hu htl hd2 ht2]
    refine ⟨rfl, ?_, by simp [stage1Str]⟩
    subst hR
    simp [samePlayerStateExceptPos, stage1Str]
  | true =>
    rw [update_mk_newtrack id3 lfm now2 R vol mute curpos totlen iuri status
      mode eq loopv title artist cp tl uri hcp hu htl (Or.inr ht2)]
    rw [applyNewTrack_radio id3 lfm vol mute curpos totlen iuri status
      mode eq loopv title artist (.str totlen)
      (stage1Str now2 cp uri vol mute status mode eq loopv R) tt ta htt hta
      hsp hz]
    refine ⟨rfl, ?_, by simp [stage1Str]⟩
    subst hR
    simp [samePlayerStateExceptPos, stage1Str]

theorem c2_aux_urlerror (id3 : Id3Oracle) (lfm : Option LfmOracle)
    (now1 now2 : Nat) (s0 : PlayerState)
    (vol mute curpos totlen iuri status mode eq loopv title artist : String)
    (cp tl : Int) (uri tt ta : String)
    (hcp : pyInt curpos = some cp) (hu : decodeHexStr iuri = some uri)
    (htl : pyInt totlen = some tl)
    (htt : decodeHexStr title = some tt) (hta : decodeHexStr artist = some ta)
    (hsp : ¬(tt = "Unknown" ∧ ta = "Unknown"))
    (hz : isTotlenStrZero (.str totlen) = false)
    (hmp : isPlayingMp3 uri = true)
    (hid : id3 uri = .urlError)
    (R : PlayerState)
    (hR : R = { stage1Str now1 cp uri vol mute status mode eq loopv s0 with
      mediaTitle := none, mediaArtist := none, mediaAlbum := none,
      mediaImageUrl := none, duration := some (Int.tdiv tl 1000) }) :
    idempotentAt id3 lfm now2 R
      (statusJson vol mute curpos totlen iuri status mode eq loopv title
        artist) := by
  have hd2 : R.duration = some (Int.tdiv tl 1000) := by rw [hR]
  unfold idempotentAt statusJson
  cases ht2 : titleDiffers (Json.str title) R.mediaTitle with
  | false =>
    rw [update_mk_oldtrack id3 lfm now2 R vol mute curpos totlen iuri status
      mode eq loopv title artist cp tl uri hcp hu htl hd2 ht2]
    refine ⟨rfl, ?_, by simp [stage1Str]⟩
    subst hR
    simp [samePlayerStateExceptPos, stage1Str]
  | true =>
    rw [update_mk_newtrack id3 lfm now2 R vol mute curpos totlen iuri status
      mode eq loopv title artist cp tl uri hcp hu htl (Or.inr ht2)]
    rw [applyNewTrack_mp3_urlError id3 lfm vol mute curpos totlen iuri status
      mode eq loopv title artist (.str totlen)
      (stage1Str now2 cp uri vol mute status mode eq loopv R) tt ta uri
      htt hta hsp hz (by simp [stage1Str]) hmp hid]
    refine ⟨rfl, ?_, by simp [stage1Str]⟩
    subst hR
    simp [samePlayerStateExceptPos, stage1Str]

theorem c2_aux_tags_nolfm (id3 : Id3Oracle) (lfm : Option LfmOracle)
    (now1 now2 : Nat) (s0 : PlayerState)
    (vol mute curpos totlen iuri status mode eq loopv title artist : String)
    (cp tl : Int) (uri tt ta : String) (tagT tagA tagL : Option String)
    (hcp : pyInt curpos = some cp) (hu : decodeHexStr iuri = some uri)
    (htl : pyInt totlen = some tl)
    (htt : decodeHexStr title = some tt) (hta : decodeHexStr artist = some ta)
    (hsp : ¬(tt = "Unknown" ∧ ta = "Unknown"))
    (hz : isTotlenStrZero (.str totlen) = false)
    (hmp : isPlayingMp3 uri = true)
    (hid : id3 uri = .tags tagT tagA tagL)
    (hskip : lfm = none ∨ tagT = none)
    (R : PlayerState)
    (hR : R = { stage1Str now1 cp uri vol mute status mode eq loopv s0 with
      mediaTitle := tagT, mediaArtist := tagA, mediaAlbum := tagL,
      mediaImageUrl := none, duration := some (Int.tdiv tl 1000) }) :
    idempotentAt id3 lfm now2 R
      (statusJson vol mute curpos totlen iuri status mode eq loopv title
        artist) := by
  have hd2 : R.duration = some (Int.tdiv tl 1000) := by rw [hR]
  unfold idempotentAt statusJson
  cases ht2 : titleDiffers (Json.str title) R.mediaTitle with
  | false =>
    rw [update_mk_oldtrack id3 lfm now2 R vol mute curpos totlen iuri status
      mode eq loopv title artist cp tl uri hcp hu htl hd2 ht2]
    refine ⟨rfl, ?_, by simp [stage1Str]⟩
    subst hR
    simp [samePlayerStateExceptPos, stage1Str]
  | true =>
    rw [update_mk_newtrack id3 lfm now2 R vol mute curpos totlen iuri status
      mode eq loopv title artist cp tl uri hcp hu htl (Or.inr ht2)]
    rw [applyNewTrack_mp3_tags_nolfm id3 lfm vol mute curpos totlen iuri
      status mode eq loopv title artist (.str totlen)
      (stage1Str now2 cp uri vol mute status mode eq loopv R) tt ta uri
      tagT tagA tagL htt hta hsp hz (by simp [stage1Str]) hmp hid hskip]
    refine ⟨rfl, ?_, by simp [stage1Str]⟩
    subst hR
    simp [samePlayerStateExceptPos, stage1Str]

theorem c2_aux_tags_lfm (id3 : Id3Oracle) (oracle : LfmOracle)
    (now1 now2 : Nat) (s0 : PlayerState)
    (vol mute curpos totlen iuri status mode eq loopv title artist : String)
    (cp tl : Int) (uri tt ta t0 : String) (tagA tagL : Option String)
    (img : Option Json)
    (hcp : pyInt curpos = some cp) (hu : decodeHexStr iuri = some uri)
    (htl : pyInt totlen = some tl)
    (htt : decodeHexStr title = some tt) (hta : decodeHexStr artist = some ta)
    (hsp : ¬(tt = "Unknown" ∧ ta = "Unknown"))
    (hz : isTotlenStrZero (.str totlen) = false)
    (hmp : isPlayingMp3 uri = true)
    (hid : id3 uri = .tags (some t0) tagA tagL)
    (himg : ∀ s5, getLastfmCoverart (oracle tagA (some t0)) s5 =
      .ok { s5 with mediaImageUrl := img })
    (R : PlayerState)
    (hR : R = { stage1Str now1 cp uri vol mute status mode eq loopv s0 with
      mediaTitle := some t0, mediaArtist := tagA, mediaAlbum := tagL,
      mediaImageUrl := img, duration := some (Int.tdiv tl 1000) }) :
    idempotentAt id3 (some oracle) now2 R
      (statusJson vol mute curpos totlen iuri status mode eq loopv title
        artist) := by
  have hd2 : R.duration = some (Int.tdiv tl 1000) := by rw [hR]
  unfold idempotentAt statusJson
  cases ht2 : titleDiffers (Json.str title) R.mediaTitle with
  | false =>
    rw [update_mk_oldtrack id3 (some oracle) now2 R vol mute curpos totlen
      iuri status mode eq loopv title artist cp tl uri hcp hu htl hd2 ht2]
    refine ⟨rfl, ?_, by simp [stage1Str]⟩
    subst hR
    simp [samePlayerStateExceptPos, stage1Str]
  | true =>
    rw [update_mk_newtrack id3 (some oracle) now2 R vol mute curpos totlen
      iuri status mode eq loopv title artist cp tl uri hcp hu htl
      (Or.inr ht2)]
    rw [applyNewTrack_mp3_tags_lfm id3 oracle vol mute curpos totlen iuri
      status mode eq loopv title artist (.str totlen)
      (stage1Str now2 cp uri vol mute status mode eq loopv R) tt ta uri
      t0 tagA tagL htt hta hsp hz (by simp [stage1Str]) hmp hid]
    rw [himg { stage1Str now2 cp uri vol mute status mode eq loopv R with
      mediaTitle := some t0, mediaArtist := tagA, mediaAlbum := tagL }]
    refine ⟨rfl, ?_, by simp [stage1Str]⟩
    subst hR
    simp [samePlayerStateExceptPos, stage1Str]

theorem c2_aux_other (id3 : Id3Oracle) (lfm : Option LfmOracle)
    (now1 now2 : Nat) (s0 : PlayerState)
    (vol mute curpos totlen iuri status mode eq loopv title artist : String)
    (cp tl : Int) (uri tt ta : String)
    (hcp : pyInt curpos = some cp) (hu : decodeHexStr iuri = some uri)
    (htl : pyInt totlen = some tl)
    (htt : decodeHexStr title = some tt) (hta : decodeHexStr artist = some ta)
    (hsp : ¬(tt = "Unknown" ∧ ta = "Unknown"))
    (hz : isTotlenStrZero (.str totlen) = false)
    (hmp : isPlayingMp3 uri = false)
    (R : PlayerState)
    (hR : R = { stage1Str now1 cp uri vol mute status mode eq loopv s0 with
      mediaTitle := some tt, mediaArtist := some ta,
      duration := some (Int.tdiv tl 1000) }) :
    idempotentAt id3 lfm now2 R
      (statusJson vol mute curpos totlen iuri status mode eq loopv title
        artist) := by
  have hd2 : R.duration = some (Int.tdiv tl 1000) := by rw [hR]
  unfold idempotentAt statusJson
  cases ht2 : titleDiffers (Json.str title) R.mediaTitle with
  | false =>
    rw [update_mk_oldtrack id3 lfm now2 R vol mute curpos totlen iuri status
      mode eq loopv title artist cp tl uri hcp hu htl hd2 ht2]
    refine ⟨rfl, ?_, by simp [stage1Str]⟩
    subst hR
    simp [samePlayerStateExceptPos, stage1Str]
  | true =>
    rw [update_mk_newtrack id3 lfm now2 R vol mute curpos totlen iuri status
      mode eq loopv title artist cp tl uri hcp hu htl (Or.inr ht2)]
    rw [applyNewTrack_other id3 lfm vol mute curpos totlen iuri status
      mode eq loopv title artist (.str totlen)
      (stage1Str now2 cp uri vol mute status mode eq loopv R) tt ta uri
      htt hta hsp hz (by simp [stage1Str]) hmp]
    refine ⟨rfl, ?_, by simp [stage1Str]⟩
    subst hR
    simp [samePlayerStateExceptPos, stage1Str]

/-- C2 counterexample: an `.mp3` status whose embedded tag titles the track
`"Foo"` — the same string its `Title` field decodes to.  After the first
apply, duration (180) and title (`"Foo"`) are unchanged relative to the
resulting state, yet the second apply of the same payload takes the
new-track path and invokes file enrichment again (`id3Calls = 1`), contrary
to the claim's parenthetical that no new-track/enrichment path is taken. -/
theorem c2_counterexample :
    (update id3Foo none 1 initialState
      (.json (.obj statusFooShort))).state.mediaTitle = some "Foo" ∧
    (update id3Foo none 1 initialState
      (.json (.obj statusFooShort))).state.duration = some 180 ∧
    decodeHexStr "466f6f" = some "Foo" ∧
    (update id3Foo none 2
      (update id3Foo none 1 initialState
        (.json (.obj statusFooShort))).state
      (.json (.obj statusFooShort))).id3Calls = 1 :=
  ⟨rfl, rfl, rfl, rfl⟩

/-- C2 as amended: for every string-field status payload on which a refresh
returns `True`, re-applying the same payload returns `True` and yields a
state identical in every field except `positionUpdatedAt` (which becomes the
second poll instant) — but the second application may, and in general does,
re-take the new-track path and re-invoke enrichment, since the stored title
is compared against the hex-encoded field. -/
theorem c2_amended (id3 : Id3Oracle) (lfm : Option LfmOracle)
    (now1 now2 : Nat) (s : PlayerState)
    (vol mute curpos totlen iuri status mode eq loopv title artist : String)
    (h : (update id3 lfm now1 s (statusJson vol mute curpos totlen iuri
      status mode eq loopv title artist)).outcome = .returned true) :
    idempotentAt id3 lfm now2
      (update id3 lfm now1 s (statusJson vol mute curpos totlen iuri status
        mode eq loopv title artist)).state
      (statusJson vol mute curpos totlen iuri status mode eq loopv title
        artist) := by
  simp only [statusJson] at h
  obtain ⟨cp, uri, tl, hcp, hu, htl⟩ := update_mk_ok_inv id3 lfm now1 s vol
    mute curpos totlen iuri status mode eq loopv title artist h
  by_cases hold : s.duration = some (Int.tdiv tl 1000) ∧
      titleDiffers (Json.str title) s.mediaTitle = false
  · exact c2_aux_oldtrack id3 lfm now1 now2 s vol mute curpos totlen iuri
      status mode eq loopv title artist cp tl uri hcp hu htl hold.2 _
      (by
        simp only [statusJson]
        rw [update_mk_oldtrack id3 lfm now1 s vol mute curpos totlen iuri
          status mode eq loopv title artist cp tl uri hcp hu htl hold.1
          hold.2])
  · have hnew1 : s.duration ≠ some (Int.tdiv tl 1000) ∨
        titleDiffers (Json.str title) s.mediaTitle = true := by
      by_cases hd : s.duration = some (Int.tdiv tl 1000)
      · cases hb : titleDiffers (Json.str title) s.mediaTitle with
        | false => exact absurd ⟨hd, hb⟩ hold
        | true => exact Or.inr rfl
      · exact Or.inl hd
    have hmain := update_mk_newtrack id3 lfm now1 s vol mute curpos totlen
      iuri status mode eq loopv title artist cp tl uri hcp hu htl hnew1
    rw [hmain] at h
    rcases htt : decodeHexStr title with _ | tt
    · exfalso
      simp [applyNewTrack, mkStatus, jLookup, hexField, htt] at h
    rcases hta : decodeHexStr artist with _ | ta
    · exfalso
      simp [applyNewTrack, mkStatus, jLookup, hexField, htt, hta] at h
    by_cases hsp : tt = "Unknown" ∧ ta = "Unknown"
    · exact c2_aux_spotify id3 lfm now1 now2 s vol mute curpos totlen iuri
        status mode eq loopv title artist cp tl uri tt ta hcp hu htl htt hta
        hsp.1 hsp.2 _
        (by
          simp only [statusJson]
          rw [hmain, applyNewTrack_spotify id3 lfm vol mute curpos totlen
            iuri status mode eq loopv title artist (.str totlen)
            (stage1Str now1 cp uri vol mute status mode eq loopv s) tt ta
            htt hta hsp.1 hsp.2])
    · cases hz : isTotlenStrZero (Json.str totlen) with
      | true =>
        exact c2_aux_radio id3 lfm now1 now2 s vol mute curpos totlen iuri
          status mode eq loopv title artist cp tl uri tt ta hcp hu htl htt
          hta hsp hz _
          (by
            simp only [statusJson]
            rw [hmain, applyNewTrack_radio id3 lfm vol mute curpos totlen
              iuri status mode eq loopv title artist (.str totlen)
              (stage1Str now1 cp uri vol mute status mode eq loopv s) tt ta
              htt hta hsp hz])
      | false =>
        cases hmp : isPlayingMp3 uri with
        | false =>
          exact c2_aux_other id3 lfm now1 now2 s vol mute curpos totlen iuri
            status mode eq loopv title artist cp tl uri tt ta hcp hu htl htt
            hta hsp hz hmp _
            (by
              simp only [statusJson]
              rw [hmain, applyNewTrack_other id3 lfm vol mute curpos totlen
                iuri status mode eq loopv title artist (.str totlen)
                (stage1Str now1 cp uri vol mute status mode eq loopv s) tt
                ta uri htt hta hsp hz (by simp [stage1Str]) hmp])
        | true =>
          rcases hid : id3 uri with _ | _ | ⟨tagT, tagA, tagL⟩
          · exact c2_aux_urlerror id3 lfm now1 now2 s vol mute curpos totlen
              iuri status mode eq loopv title artist cp tl uri tt ta hcp hu
              htl htt hta hsp hz hmp hid _
              (by
                simp only [statusJson]
                rw [hmain, applyNewTrack_mp3_urlError id3 lfm vol mute
                  curpos totlen iuri status mode eq loopv title artist
                  (.str totlen)
                  (stage1Str now1 cp uri vol mute status mode eq loopv s)
                  tt ta uri htt hta hsp hz (by simp [stage1Str]) hmp hid])
          · exfalso
            rw [applyNewTrack_mp3_noTag id3 lfm vol mute curpos totlen iuri
              status mode eq loopv title artist (.str totlen)
              (stage1Str now1 cp uri vol mute status mode eq loopv s) tt ta
              uri htt hta hsp hz (by simp [stage1Str]) hmp hid] at h
            simp at h
          · cases lfm with
            | none =>
              exact c2_aux_tags_nolfm id3 none now1 now2 s vol mute curpos
                totlen iuri status mode eq loopv title artist cp tl uri tt
                ta tagT tagA tagL hcp hu htl htt hta hsp hz hmp hid
                (Or.inl rfl) _
                (by
                  simp only [statusJson]
                  rw [hmain, applyNewTrack_mp3_tags_nolfm id3 none vol mute
                    curpos totlen iuri status mode eq loopv title artist
                    (.str totlen)
                    (stage1Str now1 cp uri vol mute status mode eq loopv s)
                    tt ta uri tagT tagA tagL htt hta hsp hz
                    (by simp [stage1Str]) hmp hid (Or.inl rfl)])
            | some oracle =>
              cases tagT with
              | none =>
                exact c2_aux_tags_nolfm id3 (some oracle) now1 now2 s vol
                  mute curpos totlen iuri status mode eq loopv title artist
                  cp tl uri tt ta none tagA tagL hcp hu htl htt hta hsp hz
                  hmp hid (Or.inr rfl) _
                  (by
                    simp only [statusJson]
                    rw [hmain, applyNewTrack_mp3_tags_nolfm id3 (some oracle)
                      vol mute curpos totlen iuri status mode eq loopv title
                      artist (.str totlen)
                      (stage1Str now1 cp uri vol mute status mode eq loopv s)
                      tt ta uri none tagA tagL htt hta hsp hz
                      (by simp [stage1Str]) hmp hid (Or.inr rfl)])
              | some t0 =>
                rw [applyNewTrack_mp3_tags_lfm id3 oracle vol mute curpos
                  totlen iuri status mode eq loopv title artist (.str totlen)
                  (stage1Str now1 cp uri vol mute status mode eq loopv s) tt
                  ta uri t0 tagA tagL htt hta hsp hz (by simp [stage1Str])
                  hmp hid] at h
                cases hg : getLastfmCoverart (oracle tagA (some t0))
                    { stage1Str now1 cp uri vol mute status mode eq loopv
                        s with
                      mediaTitle := some t0, mediaArtist := tagA,
                      mediaAlbum := tagL } with
                | error e2 =>
                  exfalso
                  rw [hg] at h
                  simp at h
                | ok s4 =>
                  obtain ⟨img, hs4, hall⟩ := getLastfm_ok_shape _ _ _ hg
                  exact c2_aux_tags_lfm id3 oracle now1 now2 s vol mute
                    curpos totlen iuri status mode eq loopv title artist cp
                    tl uri tt ta t0 tagA tagL img hcp hu htl htt hta hsp hz
                    hmp hid hall _
                    (by
                      simp only [statusJson]
                      rw [hmain, applyNewTrack_mp3_tags_lfm id3 oracle vol
                        mute curpos totlen iuri status mode eq loopv title
                        artist (.str totlen)
                        (stage1Str now1 cp uri vol mute status mode eq loopv
                          s) tt ta uri t0 tagA tagL htt hta hsp hz
                        (by simp [stage1Str]) hmp hid, hg, hs4])

/-- Witness for C2: a concrete non-mp3 payload applied twice from the
initial state. -/
theorem c2_witness :
    idempotentAt id3Tags none 9
      (update id3Tags none 8 initialState
        (statusJson "50" "0" "1000" "180000" "78" "play" "0" "0" "0"
          "466f6f" "426172")).state
      (statusJson "50" "0" "1000" "180000" "78" "play" "0" "0" "0"
        "466f6f" "426172") :=
  c2_amended id3Tags none 8 9 initialState "50" "0" "1000" "180000" "78"
    "play" "0" "0" "0" "466f6f" "426172" rfl

end LinkPlay
